

import Mathlib

/-!
Verification development for the device-bound authentication core of the
backend_supabase repository.

The Python source is shallowly embedded as executable Lean definitions:

* SHA-256 (used by the source through hashlib.sha256 for password hashes,
  session-cache integrity signatures and the device digest) is implemented
  bit-for-bit over Nat with explicit reduction mod 2^32.
* src/auth/utils/fingerprint.py: machine states become an explicit record of
  the hardware descriptors the code reads; generate_device_id is the same
  component selection, concatenation and SHA-256 digest formatting.
* src/auth/database/manager.py (PostgreSQL) and
  src/auth/database/supabase_manager.py: the user/session store becomes an
  explicit state record, each method a pure state-passing function.
* src/auth/session/manager.py: the local cache file becomes an
  Option String state; PBKDF2 key derivation, Fernet encryption and JSON
  serialization are external library primitives and are modelled by
  executable stand-ins that honour their contracts (deterministic key from
  the fingerprint, tamper-evident authenticated encryption via a SHA-256
  MAC over the payload, an injective round-tripping record encoding);
  everything else follows the source line by line.

Timestamps are modelled as integers; the source's ISO-8601 strings are in
order-preserving bijection with them, and datetime.fromisoformat is the
identity on the model.
-/

set_option maxRecDepth 100000

set_option maxHeartbeats 1000000

/-! ### SHA-256 over Nat (kernel-evaluable) -/

def w32 (x : Nat) : Nat := x % 4294967296

def rotr (n x : Nat) : Nat := w32 ((x >>> n) ||| (x <<< (32 - n)))

def sumBig0 (x : Nat) : Nat := (rotr 2 x) ^^^ (rotr 13 x) ^^^ (rotr 22 x)

def sumBig1 (x : Nat) : Nat := (rotr 6 x) ^^^ (rotr 11 x) ^^^ (rotr 25 x)

def sigSmall0 (x : Nat) : Nat := (rotr 7 x) ^^^ (rotr 18 x) ^^^ (x >>> 3)

def sigSmall1 (x : Nat) : Nat := (rotr 17 x) ^^^ (rotr 19 x) ^^^ (x >>> 10)

def chooseF (x y z : Nat) : Nat := (x &&& y) ^^^ ((x ^^^ 4294967295) &&& z)

def majorF (x y z : Nat) : Nat := (x &&& y) ^^^ (x &&& z) ^^^ (y &&& z)

def shaK : List Nat :=
  [1116352408, 1899447441, 3049323471, 3921009573, 961987163,
   1508970993, 2453635748, 2870763221, 3624381080, 310598401,
   607225278, 1426881987, 1925078388, 2162078206, 2614888103,
   3248222580, 3835390401, 4022224774, 264347078, 604807628,
   770255983, 1249150122, 1555081692, 1996064986, 2554220882,
   2821834349, 2952996808, 3210313671, 3336571891, 3584528711,
   113926993, 338241895, 666307205, 773529912, 1294757372,
   1396182291, 1695183700, 1986661051, 2177026350, 2456956037,
   2730485921, 2820302411, 3259730800, 3345764771, 3516065817,
   3600352804, 4094571909, 275423344, 430227734, 506948616,
   659060556, 883997877, 958139571, 1322822218, 1537002063,
   1747873779, 1955562222, 2024104815, 2227730452, 2361852424,
   2428436474, 2756734187, 3204031479, 3329325298]

structure Hash8 where
  a : Nat
  b : Nat
  c : Nat
  d : Nat
  e : Nat
  f : Nat
  g : Nat
  h : Nat

def initH : Hash8 :=
  ⟨1779033703, 3144134277, 1013904242, 2773480762,
   1359893119, 2600822924, 528734635, 1541459225⟩

def shaRound (s : Hash8) (kw : Nat) : Hash8 :=
  let t1 := w32 (s.h + sumBig1 s.e + chooseF s.e s.f s.g + kw)
  let t2 := w32 (sumBig0 s.a + majorF s.a s.b s.c)
  ⟨w32 (t1 + t2), s.a, s.b, s.c, w32 (s.d + t1), s.e, s.f, s.g⟩

def toWords : List Nat → List Nat
  | a :: b :: c :: d :: rest => (a * 16777216 + b * 65536 + c * 256 + d) :: toWords rest
  | _ => []

def extendW : Nat → List Nat → List Nat
  | 0, w => w
  | n + 1, w =>
      let t := w32 (sigSmall1 (w.getD (w.length - 2) 0) + w.getD (w.length - 7) 0 +
                    sigSmall0 (w.getD (w.length - 15) 0) + w.getD (w.length - 16) 0)
      extendW n (w ++ [t])

def compressBlock (s : Hash8) (block : List Nat) : Hash8 :=
  let w := extendW 48 (toWords block)
  let t := (shaK.zip w).foldl (fun st kw => shaRound st (w32 (kw.1 + kw.2))) s
  ⟨w32 (s.a + t.a), w32 (s.b + t.b), w32 (s.c + t.c), w32 (s.d + t.d),
   w32 (s.e + t.e), w32 (s.f + t.f), w32 (s.g + t.g), w32 (s.h + t.h)⟩

def padMsg (msg : List Nat) : List Nat :=
  let bitLen := msg.length * 8
  let zeros := (119 - msg.length % 64) % 64
  msg ++ 128 :: List.replicate zeros 0 ++
    [(bitLen >>> 56) % 256, (bitLen >>> 48) % 256, (bitLen >>> 40) % 256, (bitLen >>> 32) % 256,
     (bitLen >>> 24) % 256, (bitLen >>> 16) % 256, (bitLen >>> 8) % 256, bitLen % 256]

def chunksGo : Nat → List Nat → List (List Nat)
  | 0, _ => []
  | _, [] => []
  | fuel + 1, l => l.take 64 :: chunksGo fuel (l.drop 64)

def chunks64 (l : List Nat) : List (List Nat) := chunksGo l.length l

def sha256Core (msg : List Nat) : Hash8 :=
  (chunks64 (padMsg msg)).foldl compressBlock initH

def hexDigit (n : Nat) : Char :=
  if n < 10 then Char.ofNat (48 + n) else Char.ofNat (87 + n)

def wordHex (x : Nat) : String :=
  String.mk [hexDigit ((x >>> 28) % 16), hexDigit ((x >>> 24) % 16), hexDigit ((x >>> 20) % 16),
             hexDigit ((x >>> 16) % 16), hexDigit ((x >>> 12) % 16), hexDigit ((x >>> 8) % 16),
             hexDigit ((x >>> 4) % 16), hexDigit (x % 16)]

def strBytes (s : String) : List Nat := s.toList.map Char.toNat

/-- hashlib.sha256(s.encode()).hexdigest() : the 64-character lowercase hex digest. -/
def sha256Hex (s : String) : String :=
  let r := sha256Core (strBytes s)
  wordHex r.a ++ wordHex r.b ++ wordHex r.c ++ wordHex r.d ++
  wordHex r.e ++ wordHex r.f ++ wordHex r.g ++ wordHex r.h

/-! ### Device fingerprint (src/auth/utils/fingerprint.py)

A machine state records exactly the signals the source reads: each
platform-specific descriptor source is an Option (None = source unavailable
or returned a filtered placeholder), and the fallback chain of each getter
mirrors the source.  Volatile fields (hostname, current IP, boot id,
environment user) are part of the state so that claims about them can be
stated. -/

structure Machine where
  cpu_source : Option String
  cpu_fallback : String
  board_serial : Option String
  product_uuid : Option String
  storage_ids : List String
  macs : List String
  platform_str : String
  hostname : String
  username_env : String
  current_ip : String
  boot_id : String
  sys_name : String
  sys_release : String
  sys_version : String
deriving DecidableEq

/-- DeviceFingerprint.get_cpu_info: platform CPU id, falling back to
platform.processor()_platform.machine(). -/
def get_cpu_info (m : Machine) : String := m.cpu_source.getD m.cpu_fallback

/-- DeviceFingerprint.get_motherboard_info: board serial, then BIOS/product
UUID, then platform.node() — the hostname — as the final fallback. -/
def get_motherboard_info (m : Machine) : String :=
  (m.board_serial.getD (m.product_uuid.getD m.hostname))

def insortStr (s : String) : List String → List String
  | [] => [s]
  | x :: xs => if s ≤ x then s :: x :: xs else x :: insortStr s xs

/-- Python sorted() on a list of strings. -/
def sortStrs (l : List String) : List String := l.foldr insortStr []

def strContainsGo (needle : List Char) : List Char → Bool
  | [] => needle.isPrefixOf []
  | c :: rest => needle.isPrefixOf (c :: rest) || strContainsGo needle rest

/-- Substring containment, Python's `needle in haystack`. -/
def strContains (haystack needle : String) : Bool :=
  strContainsGo needle.data haystack.data

/-- DeviceFingerprint.get_storage_info: sorted serials joined by "|",
"unknown_storage" when none. -/
def get_storage_info (m : Machine) : String :=
  if m.storage_ids.isEmpty then "unknown_storage"
  else String.intercalate "|" (sortStrs m.storage_ids)

/-- DeviceFingerprint.get_network_info: MACs minus the virtual-interface
ones, sorted and joined by "|"; "unknown_mac" when none survive. -/
def get_network_info (m : Machine) : String :=
  let filtered := m.macs.filter (fun mac =>
    !(strContains mac "02:42:" || strContains mac "00:15:5d:" || strContains mac "00:50:56:"))
  if filtered.isEmpty then "unknown_mac"
  else String.intercalate "|" (sortStrs filtered)

/-- DeviceFingerprint.get_system_info: boot id plus platform
system/release/version.  Collected by collect_fingerprint_data but never fed
into the digest. -/
def get_system_info (m : Machine) : String :=
  String.intercalate "|" [m.boot_id, m.sys_name, m.sys_release, m.sys_version]

/-- DeviceFingerprint.generate_device_id: the five stable components (plus
hostname and environment user when include_volatile) joined by "|" with empty
components dropped, SHA-256-hashed and formatted as grouped hex. -/
def generate_device_id (m : Machine) (include_volatile : Bool) : String :=
  let stable := [get_cpu_info m, get_motherboard_info m, get_storage_info m,
                 get_network_info m, m.platform_str]
  let comps := if include_volatile then stable ++ [m.hostname, m.username_env] else stable
  let combined := String.intercalate "|" (comps.filter (fun s => s != ""))
  let device_hash := (sha256Hex combined).data
  String.mk (device_hash.take 8) ++ "-" ++ String.mk ((device_hash.drop 8).take 4) ++ "-" ++
  String.mk ((device_hash.drop 12).take 4) ++ "-" ++ String.mk ((device_hash.drop 16).take 4) ++
  "-" ++ String.mk ((device_hash.drop 20).take 12)

/-! ### User/session store (src/auth/database/manager.py and
src/auth/database/supabase_manager.py)

One row type per table; the store is a pair of row lists.  SQL SELECT with a
WHERE clause becomes List.find? over the rows; UPDATE becomes a map.  The
account_types join is flattened into the user row (name and id), as every
query in the source only reads those two columns of it.  datetime.now() is
passed in as the integer parameter now. -/

structure UserRow where
  id : Nat
  username : String
  password_hash : String
  device_fingerprint : Option String
  expires_at : Option Int
  is_active : Bool
  account_type : String
  account_type_id : Nat
deriving DecidableEq

structure SessionRow where
  id : Nat
  user_id : Nat
  session_token : String
  device_fingerprint : String
  expires_at : Int
  last_activity : Int
  is_active : Bool
deriving DecidableEq

structure AuthDb where
  users : List UserRow
  sessions : List SessionRow
deriving DecidableEq

def userById (db : AuthDb) (uid : Nat) : Option UserRow :=
  db.users.find? (fun u => u.id == uid)

/-- The result dictionary of authenticate_user: either
\x7b'success': False, 'error': e\x7d or the success payload. -/
inductive AuthResult where
  | failure (error : String)
  | success (user_id : Nat) (username : String) (account_type : String) (expires_at : Option Int)
deriving DecidableEq

/-- True when the user-level expiry gate trips: expires_at set and now past it. -/
def userExpired (now : Int) (e : Option Int) : Bool :=
  match e with
  | some t => now > t
  | none => false

/-- UPDATE users SET device_fingerprint = dev WHERE id = uid. -/
def bindDevice (db : AuthDb) (uid : Nat) (dev : String) : AuthDb :=
  { db with users := db.users.map (fun u =>
      if u.id == uid then { u with device_fingerprint := some dev } else u) }

/-- AuthDatabaseManager.authenticate_user (PostgreSQL manager).  The SQL user
lookup filters on username AND is_active = true; then password hash, account
expiry and device binding are checked in that order, binding the device on
first login. -/
def pgAuthenticate (now : Int) (db : AuthDb) (username password device : String) :
    AuthResult × AuthDb :=
  match db.users.find? (fun u => u.username == username && u.is_active) with
  | none => (.failure "Invalid credentials", db)
  | some u =>
    if u.password_hash != sha256Hex password then (.failure "Invalid credentials", db)
    else if userExpired now u.expires_at then (.failure "Account expired", db)
    else
      match u.device_fingerprint with
      | some d =>
        if d != device then (.failure "Account is bound to another device", db)
        else (.success u.id u.username u.account_type u.expires_at, db)
      | none =>
        (.success u.id u.username u.account_type u.expires_at, bindDevice db u.id device)

/-- SupabaseDatabaseManager.authenticate_user.  The Supabase query filters on
username AND password_hash (not on is_active); the active flag, expiry and
device binding are then checked in the code, in that order. -/
def sbAuthenticate (now : Int) (db : AuthDb) (username password device : String) :
    AuthResult × AuthDb :=
  match db.users.find? (fun u => u.username == username && u.password_hash == sha256Hex password) with
  | none => (.failure "Invalid credentials", db)
  | some u =>
    if !u.is_active then (.failure "Account inactive", db)
    else if userExpired now u.expires_at then (.failure "Account expired", db)
    else
      match u.device_fingerprint with
      | some d =>
        if d != device then (.failure "Account is bound to another device", db)
        else (.success u.id u.username u.account_type u.expires_at, db)
      | none =>
        (.success u.id u.username u.account_type u.expires_at, bindDevice db u.id device)

/-- Result dictionary of the PostgreSQL verify_session:
\x7b'valid': False, 'error': e\x7d or \x7b'valid': True, user info\x7d. -/
inductive VerifyResult where
  | invalid (error : String)
  | valid (user_id : Nat) (username : String) (account_type : String)
deriving DecidableEq

/-- UPDATE user_sessions SET last_activity = now WHERE session_token = token. -/
def touchSession (db : AuthDb) (token : String) (now : Int) : AuthDb :=
  { db with sessions := db.sessions.map (fun s =>
      if s.session_token == token then { s with last_activity := now } else s) }

/-- AuthDatabaseManager.verify_session (PostgreSQL manager).  The SQL lookup
joins sessions to users and filters on session_token AND device_fingerprint,
so a missing session and a device mismatch yield the same empty result; an
expired session is reported but the row is left untouched. -/
def pgVerifySession (now : Int) (db : AuthDb) (token device : String) :
    VerifyResult × AuthDb :=
  match db.sessions.find? (fun s => s.session_token == token && s.device_fingerprint == device) with
  | none => (.invalid "Invalid session", db)
  | some s =>
    match userById db s.user_id with
    | none => (.invalid "Invalid session", db)
    | some u =>
      if !s.is_active || !u.is_active then (.invalid "Session or user inactive", db)
      else if now > s.expires_at then (.invalid "Session expired", db)
      else if userExpired now u.expires_at then (.invalid "Account expired", db)
      else (.valid s.user_id u.username u.account_type, touchSession db token now)

/-- UPDATE user_sessions SET is_active = false WHERE id = sid. -/
def deactivateById (db : AuthDb) (sid : Nat) : AuthDb :=
  { db with sessions := db.sessions.map (fun s =>
      if s.id == sid then { s with is_active := false } else s) }

/-- UPDATE user_sessions SET last_activity = now WHERE id = sid. -/
def touchById (db : AuthDb) (sid : Nat) (now : Int) : AuthDb :=
  { db with sessions := db.sessions.map (fun s =>
      if s.id == sid then { s with last_activity := now } else s) }

/-- The user-info dictionary returned by the Supabase verify_session. -/
structure SbUserInfo where
  user_id : Nat
  username : String
  account_type_id : Nat
deriving DecidableEq

/-- SupabaseDatabaseManager.verify_session.  Looks up by token alone, then
checks session active, device match, expiry (deactivating the row on expiry)
and user active; every failure is reported as None. -/
def sbVerifySession (now : Int) (db : AuthDb) (token device : String) :
    Option SbUserInfo × AuthDb :=
  match db.sessions.find? (fun s => s.session_token == token) with
  | none => (none, db)
  | some s =>
    match userById db s.user_id with
    | none => (none, db)
    | some u =>
      if !s.is_active then (none, db)
      else if s.device_fingerprint != device then (none, db)
      else if s.expires_at < now then (none, deactivateById db s.id)
      else if !u.is_active then (none, db)
      else (some ⟨s.user_id, u.username, u.account_type_id⟩, touchById db s.id now)

/-- AuthDatabaseManager.revoke_session: UPDATE ... SET is_active = false
WHERE session_token = token; returns cursor.rowcount > 0. -/
def pgRevokeSession (db : AuthDb) (token : String) : Bool × AuthDb :=
  let affected := (db.sessions.filter (fun s => s.session_token == token)).length
  (affected > 0,
   { db with sessions := db.sessions.map (fun s =>
       if s.session_token == token then { s with is_active := false } else s) })

/-- SupabaseDatabaseManager.revoke_session: the PostgREST update returns the
touched rows; the method returns True iff that list is nonempty. -/
def sbRevokeSession (db : AuthDb) (token : String) : Bool × AuthDb :=
  let touched := db.sessions.filter (fun s => s.session_token == token)
  (!touched.isEmpty,
   { db with sessions := db.sessions.map (fun s =>
       if s.session_token == token then { s with is_active := false } else s) })

/-! ### First-login device-binding race (claim C2)

authenticate_user is check-then-act: one SELECT reads the user row, and —
when the row is unbound — one UPDATE writes the presented fingerprint.
threading.Lock serialises the two inside one process, but callers may be
distributed, so the race model interleaves the two atomic statements of two
concurrent calls in every order that respects each call's program order.
raceRead / raceDecision / raceWrites split pgAuthenticate into exactly those
two phases; pgAuthenticate_phase_split proves the split is faithful. -/

/-- The SELECT phase of AuthDatabaseManager.authenticate_user. -/
def raceRead (db : AuthDb) (username : String) : Option UserRow :=
  db.users.find? (fun u => u.username == username && u.is_active)

/-- The result the caller computes from its private row snapshot. -/
def raceDecision (now : Int) (snapshot : Option UserRow) (password device : String) :
    AuthResult :=
  match snapshot with
  | none => .failure "Invalid credentials"
  | some u =>
    if u.password_hash != sha256Hex password then .failure "Invalid credentials"
    else if userExpired now u.expires_at then .failure "Account expired"
    else
      match u.device_fingerprint with
      | some d =>
        if d != device then .failure "Account is bound to another device"
        else .success u.id u.username u.account_type u.expires_at
      | none => .success u.id u.username u.account_type u.expires_at

/-- Whether the snapshot routes the caller into the UPDATE (bind) branch. -/
def raceWrites (now : Int) (snapshot : Option UserRow) (password : String) : Bool :=
  match snapshot with
  | none => false
  | some u =>
    u.password_hash == sha256Hex password && !userExpired now u.expires_at &&
      u.device_fingerprint.isNone

/-- The UPDATE phase: performed against the then-current store. -/
def raceWriteStep (now : Int) (db : AuthDb) (snapshot : Option UserRow)
    (password device : String) : AuthDb :=
  match snapshot with
  | some u => if raceWrites now (some u) password then bindDevice db u.id device else db
  | none => db

/-- The six interleavings of caller 1's (read, write) and caller 2's
(read, write) that keep each caller's read before its write. -/
inductive Sched where
  | rw1rw2
  | rw2rw1
  | rr12ww12
  | rr12ww21
  | rr21ww12
  | rr21ww21
deriving DecidableEq

/-- Outcome of running two concurrent authenticate_user calls for the same
username/password from devices d1 and d2 under a given interleaving:
(result of caller 1, result of caller 2, final store). -/
def runSched (sched : Sched) (now : Int) (db0 : AuthDb) (username password d1 d2 : String) :
    AuthResult × AuthResult × AuthDb :=
  match sched with
  | .rw1rw2 =>
    let c1 := raceRead db0 username
    let db1 := raceWriteStep now db0 c1 password d1
    let c2 := raceRead db1 username
    let db2 := raceWriteStep now db1 c2 password d2
    (raceDecision now c1 password d1, raceDecision now c2 password d2, db2)
  | .rw2rw1 =>
    let c2 := raceRead db0 username
    let db1 := raceWriteStep now db0 c2 password d2
    let c1 := raceRead db1 username
    let db2 := raceWriteStep now db1 c1 password d1
    (raceDecision now c1 password d1, raceDecision now c2 password d2, db2)
  | .rr12ww12 =>
    let c1 := raceRead db0 username
    let c2 := raceRead db0 username
    let db1 := raceWriteStep now db0 c1 password d1
    let db2 := raceWriteStep now db1 c2 password d2
    (raceDecision now c1 password d1, raceDecision now c2 password d2, db2)
  | .rr12ww21 =>
    let c1 := raceRead db0 username
    let c2 := raceRead db0 username
    let db1 := raceWriteStep now db0 c2 password d2
    let db2 := raceWriteStep now db1 c1 password d1
    (raceDecision now c1 password d1, raceDecision now c2 password d2, db2)
  | .rr21ww12 =>
    let c2 := raceRead db0 username
    let c1 := raceRead db0 username
    let db1 := raceWriteStep now db0 c1 password d1
    let db2 := raceWriteStep now db1 c2 password d2
    (raceDecision now c1 password d1, raceDecision now c2 password d2, db2)
  | .rr21ww21 =>
    let c2 := raceRead db0 username
    let c1 := raceRead db0 username
    let db1 := raceWriteStep now db0 c2 password d2
    let db2 := raceWriteStep now db1 c1 password d1
    (raceDecision now c1 password d1, raceDecision now c2 password d2, db2)

/-! ### Decimal and character codecs

Executable renderings used by the local-cache model: decimal strings for
integers (Python str(int)) and a fixed-width six-hex-digit encoding for
characters inside the record serialization, both with proved round-trips. -/

def decDigitsGo : Nat → Nat → List Nat
  | 0, _ => []
  | _, 0 => []
  | fuel + 1, n => n % 10 :: decDigitsGo fuel (n / 10)

/-- Little-endian decimal digits of n (empty for 0). -/
def decDigits (n : Nat) : List Nat := decDigitsGo n n

def undigits : List Nat → Nat
  | [] => 0
  | d :: rest => d + 10 * undigits rest

/-- Python str(n) for a natural number. -/
def natDecStr (n : Nat) : String :=
  if n = 0 then "0" else String.mk ((decDigits n).reverse.map hexDigit)

/-- Python str(i) for an integer. -/
def intDecStr (i : Int) : String :=
  match i with
  | .ofNat n => natDecStr n
  | .negSucc n => "-" ++ natDecStr (n + 1)

def digitVal (c : Char) : Option Nat :=
  if 48 ≤ c.toNat ∧ c.toNat ≤ 57 then some (c.toNat - 48) else none

def parseNatGo : List Char → Nat → Option Nat
  | [], acc => some acc
  | c :: rest, acc =>
    match digitVal c with
    | none => none
    | some d => parseNatGo rest (acc * 10 + d)

def parseNatChars (l : List Char) : Option Nat :=
  if l.isEmpty then none else parseNatGo l 0

def parseIntChars : List Char → Option Int
  | '-' :: rest => (parseNatChars rest).map (fun n => -(n : Int))
  | l => (parseNatChars l).map (fun n => (n : Int))

def hex6 (n : Nat) : List Char :=
  [hexDigit (n / 1048576 % 16), hexDigit (n / 65536 % 16), hexDigit (n / 4096 % 16),
   hexDigit (n / 256 % 16), hexDigit (n / 16 % 16), hexDigit (n % 16)]

/-- A character as six fixed-width hex digits of its code point. -/
def encChar (c : Char) : List Char := hex6 c.toNat

/-- A string as the concatenation of its characters' hex groups. -/
def encChars (s : String) : List Char := (s.data.map encChar).flatten

def hexVal (c : Char) : Option Nat :=
  if 48 ≤ c.toNat ∧ c.toNat ≤ 57 then some (c.toNat - 48)
  else if 97 ≤ c.toNat ∧ c.toNat ≤ 102 then some (c.toNat - 87)
  else none

def decHex6 (a b c d e f : Char) : Option Char :=
  match hexVal a, hexVal b, hexVal c, hexVal d, hexVal e, hexVal f with
  | some va, some vb, some vc, some vd, some ve, some vf =>
      some (Char.ofNat (((((va * 16 + vb) * 16 + vc) * 16 + vd) * 16 + ve) * 16 + vf))
  | _, _, _, _, _, _ => none

def decGroups : List Char → Option (List Char)
  | [] => some []
  | a :: b :: c :: d :: e :: f :: rest =>
    match decHex6 a b c d e f with
    | none => none
    | some ch => (decGroups rest).map (fun l => ch :: l)
  | _ => none

/-- Split at the first '|' : the consumed field and the remainder after it. -/
def breakBar : List Char → Option (List Char × List Char)
  | [] => none
  | c :: rest =>
    if c = '|' then some ([], rest)
    else (breakBar rest).map (fun p => (c :: p.1, p.2))

/-! ### Cached session record and its serialization
(src/auth/session/manager.py)

The record save_session builds and json.dumps serializes.  The model
serialization is an injective field encoding (fixed-width hex for string
contents, decimal for the integer timestamps, '|' field separators, a '.'
terminator for the user-info dictionary) with a proved parse round-trip; it
stands in for json.dumps/json.loads. -/

structure SessionData where
  session_token : String
  user_info : List (String × String)
  expires_at : Option Int
  device_fingerprint : String
  created_at : Int
  api_base_url : String
deriving DecidableEq

structure FinalData where
  session_data : SessionData
  signature : String
  version : String
deriving DecidableEq

/-- A string field: hex-encoded contents plus the '|' separator. -/
def encField (s : String) : List Char := encChars s ++ ['|']

/-- An integer field: decimal rendering plus the separator. -/
def intField (i : Int) : List Char := (intDecStr i).data ++ ['|']

/-- An optional integer field: 'n' encodes None. -/
def optIntField : Option Int → List Char
  | none => ['n', '|']
  | some i => intField i

def uiPairEnc (p : String × String) : List Char := encField p.1 ++ encField p.2

/-- The user_info dictionary: its pairs, then a '.' terminator field. -/
def uiEnc (ui : List (String × String)) : List Char :=
  (ui.map uiPairEnc).flatten ++ ['.', '|']

def parseEncField (l : List Char) : Option (String × List Char) :=
  match breakBar l with
  | none => none
  | some (f, rest) =>
    match decGroups f with
    | none => none
    | some cs => some (String.mk cs, rest)

def parseIntField (l : List Char) : Option (Int × List Char) :=
  match breakBar l with
  | none => none
  | some (f, rest) =>
    match parseIntChars f with
    | none => none
    | some i => some (i, rest)

def parseOptIntField (l : List Char) : Option (Option Int × List Char) :=
  match breakBar l with
  | none => none
  | some (f, rest) =>
    if f = ['n'] then some (none, rest)
    else
      match parseIntChars f with
      | none => none
      | some i => some (some i, rest)

def parseUI : Nat → List Char → Option (List (String × String) × List Char)
  | 0, _ => none
  | fuel + 1, l =>
    match breakBar l with
    | none => none
    | some (f, rest) =>
      if f = ['.'] then some ([], rest)
      else
        match decGroups f with
        | none => none
        | some key =>
          match parseEncField rest with
          | none => none
          | some (v, rest2) =>
            match parseUI fuel rest2 with
            | none => none
            | some (tl, rest3) => some ((String.mk key, v) :: tl, rest3)

def serializeFinal (fd : FinalData) : String :=
  String.mk (encField fd.session_data.session_token ++ uiEnc fd.session_data.user_info ++
    optIntField fd.session_data.expires_at ++ encField fd.session_data.device_fingerprint ++
    intField fd.session_data.created_at ++ encField fd.session_data.api_base_url ++
    encField fd.signature ++ encField fd.version)

def parseFinal (s : String) : Option FinalData :=
  match parseEncField s.data with
  | none => none
  | some (tok, r1) =>
    match parseUI (r1.length + 1) r1 with
    | none => none
    | some (ui, r2) =>
      match parseOptIntField r2 with
      | none => none
      | some (exp, r3) =>
        match parseEncField r3 with
        | none => none
        | some (dfp, r4) =>
          match parseIntField r4 with
          | none => none
          | some (created, r5) =>
            match parseEncField r5 with
            | none => none
            | some (url, r6) =>
              match parseEncField r6 with
              | none => none
              | some (sig, r7) =>
                match parseEncField r7 with
                | none => none
                | some (ver, r8) =>
                  if r8.isEmpty then some ⟨⟨tok, ui, exp, dfp, created, url⟩, sig, ver⟩
                  else none

/-- Modelled from the library contract of PBKDF2HMAC-SHA256 in
SessionManager._get_encryption_key: a key that is a fixed deterministic
function of the device fingerprint, salted with the application constants;
the iteration count only hardens brute force and plays no role in the
claims. -/
def kdfKey (fp : String) : String :=
  fp ++ "_elevenlabs_session" ++ "#" ++ "elevenlabs_salt_2024"

/-- Modelled from the library contract of Fernet in _encrypt_data (including
the extra urlsafe base64 wrapping, which is a bijection and is absorbed):
a SHA-256 MAC over key and payload, prepended to the payload. -/
def encryptData (key data : String) : String := sha256Hex (key ++ "#" ++ data) ++ data

/-- Modelled from the library contract of Fernet in _decrypt_data: recompute
and compare the MAC; any mismatch (tampering, wrong key) fails. -/
def decryptData (key c : String) : Option String :=
  if c.data.length < 64 then none
  else
    let mac := c.data.take 64
    let payload := c.data.drop 64
    if String.mk mac = sha256Hex (key ++ "#" ++ String.mk payload) then some (String.mk payload)
    else none

/-- Python's str.strip() on the file contents. -/
def pyWs (c : Char) : Bool :=
  c = ' ' || c = '\t' || c = '\n' || c = '\r' || c = '\x0B' || c = '\x0C'

def pyStrip (s : String) : String :=
  String.mk (((s.data.dropWhile pyWs).reverse.dropWhile pyWs).reverse)

/-- str(expires_at) as it appears in the signature input: the empty string
for an absent expiry, the timestamp otherwise. -/
def optIntStr : Option Int → String
  | none => ""
  | some i => intDecStr i

/-- SessionManager._create_session_signature: SHA-256 over
token + user_id + expiry + fingerprint followed by the fingerprint-scoped
secret.  save_session never stores a user_id key, so
session_data.get('user_id', '') always renders as "". -/
def sessionSignature (fp : String) (sd : SessionData) : String :=
  sha256Hex (sd.session_token ++ "" ++ optIntStr sd.expires_at ++ fp ++
    ("elevenlabs_session_secret_" ++ fp))

/-- SessionManager.save_session: build the record with the machine's
fingerprint and creation time, sign it, serialize, encrypt under the
fingerprint-derived key, and overwrite the cache file. -/
def save_session (fp api_base_url : String) (now : Int) (session_token : String)
    (user_info : List (String × String)) (expires_at : Option Int) : Bool × Option String :=
  let sd : SessionData := ⟨session_token, user_info, expires_at, fp, now, api_base_url⟩
  let sg := sessionSignature fp sd
  let fd : FinalData := ⟨sd, sg, "1.0"⟩
  (true, some (encryptData (kdfKey fp) (serializeFinal fd)))

/-- SessionManager.load_session.  Mirrors the source's branch structure:
a failed decryption prints and returns None without touching the file
(_decrypt_data returns "" and load_session just returns); a parse error
raises and the outer handler clears; signature mismatch, fingerprint
mismatch and expiry clear explicitly. -/
def load_session (fp : String) (now : Int) (file : Option String) :
    Option SessionData × Option String :=
  match file with
  | none => (none, none)
  | some raw =>
    let content := pyStrip raw
    if content = "" then (none, some raw)
    else
      match decryptData (kdfKey fp) content with
      | none => (none, some raw)
      | some plain =>
        match parseFinal plain with
        | none => (none, none)
        | some fd =>
          if sessionSignature fp fd.session_data != fd.signature then (none, none)
          else if fd.session_data.device_fingerprint != fp then (none, none)
          else
            match fd.session_data.expires_at with
            | some e => if now > e then (none, none) else (some fd.session_data, some raw)
            | none => (some fd.session_data, some raw)

/-- One observed outcome of the POST to /auth/verify: a raised
requests.RequestException (connection failure or timeout), a non-200 status,
or a 200 JSON body with its valid / user_info / error fields. -/
inductive NetOutcome where
  | netFail (msg : String)
  | httpErr (status : Nat)
  | reply (valid : Bool) (user_info : Option (List (String × String))) (error : Option String)
deriving DecidableEq

/-- SessionManager.verify_session_online: returns
(valid, user_info, error_message); every RequestException is caught inside
and reported as a Connection error triple. -/
def verify_session_online (net : NetOutcome) :
    Bool × Option (List (String × String)) × Option String :=
  match net with
  | .netFail msg => (false, none, some ("Connection error: " ++ msg))
  | .httpErr status => (false, none, some ("Server error: " ++ natDecStr status))
  | .reply valid user_info error =>
    if valid then (true, user_info, none)
    else (false, none, some (error.getD "Session invalid"))

/-- SessionManager.get_current_session: load from cache, then force online
verification; any outcome other than a valid reply with nonempty user info
clears the cache and returns None.  The source's own
except-RequestException arm is unreachable because verify_session_online
already catches it, but it clears the cache and returns None as well. -/
def get_current_session (fp : String) (now : Int) (file : Option String) (net : NetOutcome) :
    Option SessionData × Option String :=
  let r := load_session fp now file
  match r.1 with
  | none => (none, r.2)
  | some sd =>
    if sd.session_token = "" then (none, r.2)
    else
      match verify_session_online net with
      | (true, some ui, _) =>
        if ui.isEmpty then (none, none)
        else (some { sd with user_info := ui }, r.2)
      | _ => (none, none)

/-- Concrete store fixture shared by the witnesses below: one active trial
user "alice" (password hash left abstract where no login is exercised) and
one active session T1 bound to device D1 expiring at time 200. -/
def aliceRow : UserRow := ⟨1, "alice", "ph", none, none, true, "trial", 1⟩

def t1Row : SessionRow := ⟨1, 1, "T1", "D1", 200, 0, true⟩

def cdb : AuthDb := ⟨[aliceRow], [t1Row]⟩

/-! ### Character-class facts: serialized artifacts contain no whitespace,
so str.strip() leaves them unchanged. -/

abbrev serialChar (c : Char) : Prop :=
  c.toNat = 45 ∨ c.toNat = 46 ∨ c.toNat = 110 ∨ c.toNat = 124 ∨
    (48 ≤ c.toNat ∧ c.toNat ≤ 57) ∨ (97 ≤ c.toNat ∧ c.toNat ≤ 102)

/-! ### Theorems -/

theorem wordHex_data_length (x : Nat) : (wordHex x).data.length = 8 := by
  simp [wordHex]

theorem sha256Hex_data_length (s : String) : (sha256Hex s).data.length = 64 := by
  simp [sha256Hex, String.data_append, wordHex]

/-- The two-phase split recomposes to pgAuthenticate: reading and then
conditionally writing with no interference in between is exactly the
sequential method. -/
theorem pgAuthenticate_phase_split (now : Int) (db : AuthDb) (username password device : String) :
    pgAuthenticate now db username password device =
      (raceDecision now (raceRead db username) password device,
       raceWriteStep now db (raceRead db username) password device) := by
  unfold pgAuthenticate raceDecision raceWriteStep raceWrites raceRead
  cases h : db.users.find? (fun u => u.username == username && u.is_active) with
  | none => rfl
  | some u =>
    by_cases hp : u.password_hash == sha256Hex password <;>
      by_cases he : userExpired now u.expires_at <;>
        cases hd : u.device_fingerprint <;>
          simp [hp, he, hd] <;> split <;> simp_all <;> split <;> simp_all

theorem undigits_decDigitsGo (fuel : Nat) : ∀ n, n ≤ fuel → undigits (decDigitsGo fuel n) = n := by
  induction fuel with
  | zero => intro n h; interval_cases n; rfl
  | succ f ih =>
    intro n h
    cases n with
    | zero => rfl
    | succ m =>
      have hdiv : (m + 1) / 10 ≤ f := by omega
      simp [decDigitsGo, undigits, ih _ hdiv]
      omega

theorem undigits_decDigits (n : Nat) : undigits (decDigits n) = n :=
  undigits_decDigitsGo n n (Nat.le_refl n)

theorem decDigitsGo_lt (fuel : Nat) : ∀ n d, d ∈ decDigitsGo fuel n → d < 10 := by
  induction fuel with
  | zero => intro n d h; simp [decDigitsGo] at h
  | succ f ih =>
    intro n d h
    cases n with
    | zero => simp [decDigitsGo] at h
    | succ m =>
      simp only [decDigitsGo, List.mem_cons] at h
      rcases h with h | h
      · omega
      · exact ih _ _ h

theorem digitVal_hexDigit (d : Nat) (h : d < 10) : digitVal (hexDigit d) = some d := by
  interval_cases d <;> rfl

theorem parseNatGo_digits (ds : List Nat) : ∀ acc, (∀ d ∈ ds, d < 10) →
    parseNatGo (ds.map hexDigit) acc = some (ds.foldl (fun a d => a * 10 + d) acc) := by
  induction ds with
  | nil => intro acc _; rfl
  | cons d rest ih =>
    intro acc hall
    have hd : d < 10 := hall d (by simp)
    simp only [List.map_cons, parseNatGo, digitVal_hexDigit d hd, List.foldl_cons]
    exact ih _ (fun x hx => hall x (by simp [hx]))

theorem foldl_reverse_undigits (ds : List Nat) :
    ds.reverse.foldl (fun a d => a * 10 + d) 0 = undigits ds := by
  rw [List.foldl_reverse]
  induction ds with
  | nil => rfl
  | cons d rest ih => simp [undigits, List.foldr_cons, ih]; omega

theorem parseNatChars_natDecStr (n : Nat) : parseNatChars (natDecStr n).data = some n := by
  by_cases h : n = 0
  · subst h; rfl
  · have hne : decDigits n ≠ [] := by
      intro hc
      have := undigits_decDigits n
      rw [hc] at this
      simp [undigits] at this
      omega
    simp only [natDecStr, if_neg h]
    show parseNatChars ((decDigits n).reverse.map hexDigit) = some n
    have hnonempty : ((decDigits n).reverse.map hexDigit).isEmpty = false := by
      simp [List.isEmpty_iff, hne]
    have hall : ∀ d ∈ (decDigits n).reverse, d < 10 := by
      intro d hd
      exact decDigitsGo_lt n n d (List.mem_reverse.mp hd)
    have hres : parseNatGo ((decDigits n).reverse.map hexDigit) 0 = some n := by
      rw [parseNatGo_digits _ 0 hall, foldl_reverse_undigits, undigits_decDigits]
    simp only [parseNatChars]
    simp [List.isEmpty_iff, hne]
    simpa using hres

theorem natDecStr_head_digit (n : Nat) :
    ∀ c, c ∈ (natDecStr n).data → 48 ≤ c.toNat ∧ c.toNat ≤ 57 := by
  by_cases h : n = 0
  · subst h; intro c hc; simp [natDecStr] at hc; subst hc; decide
  · intro c hc
    simp only [natDecStr, if_neg h] at hc
    have : c ∈ (decDigits n).reverse.map hexDigit := hc
    obtain ⟨d, hd, rfl⟩ := List.mem_map.mp this
    have hlt : d < 10 := decDigitsGo_lt n n d (List.mem_reverse.mp hd)
    interval_cases d <;> decide

theorem parseIntChars_intDecStr (i : Int) : parseIntChars (intDecStr i).data = some i := by
  match i with
  | .ofNat n =>
    have hne : (natDecStr n).data ≠ [] := by
      by_cases h : n = 0
      · subst h; decide
      · simp only [natDecStr, if_neg h]
        have hne2 : decDigits n ≠ [] := by
          intro hc
          have := undigits_decDigits n
          rw [hc] at this
          simp [undigits] at this
          omega
        cases hd : decDigits n with
        | nil => exact absurd hd hne2
        | cons a l => simp [hd]
    have hnotminus : ∀ l, (natDecStr n).data = l →
        parseIntChars l = (parseNatChars l).map (fun m => (m : Int)) := by
      intro l hl
      cases l with
      | nil => rfl
      | cons c rest =>
        have hc : 48 ≤ c.toNat ∧ c.toNat ≤ 57 := natDecStr_head_digit n c (by rw [hl]; simp)
        have : c ≠ '-' := by
          intro hcc
          subst hcc
          exact absurd hc (by decide)
        simp only [parseIntChars]
        split
        · rename_i heq
          cases heq
          exact absurd rfl this
        · rfl
    simp only [intDecStr]
    rw [hnotminus _ rfl, parseNatChars_natDecStr]
    rfl
  | .negSucc n =>
    have hsplit : (intDecStr (Int.negSucc n)).data = '-' :: (natDecStr (n + 1)).data := by
      simp [intDecStr, String.data_append]
    rw [hsplit]
    simp only [parseIntChars, parseNatChars_natDecStr]
    rfl

theorem hexVal_hexDigit (k : Nat) (h : k < 16) : hexVal (hexDigit k) = some k := by
  interval_cases k <;> rfl

theorem char_toNat_lt (c : Char) : c.toNat < 1114112 := by
  have h := c.valid
  rcases h with h | h
  · have : c.val.toNat < 55296 := h
    simp only [Char.toNat]
    omega
  · obtain ⟨_, h2⟩ := h
    have : c.val.toNat < 1114112 := h2
    simp only [Char.toNat]
    omega

theorem decHex6_encChar (c : Char) :
    decHex6 (hexDigit (c.toNat / 1048576 % 16)) (hexDigit (c.toNat / 65536 % 16))
      (hexDigit (c.toNat / 4096 % 16)) (hexDigit (c.toNat / 256 % 16))
      (hexDigit (c.toNat / 16 % 16)) (hexDigit (c.toNat % 16)) = some c := by
  have hlt : ∀ x : Nat, x % 16 < 16 := fun x => Nat.mod_lt x (by omega)
  simp only [decHex6, hexVal_hexDigit _ (hlt _)]
  have hc : c.toNat < 1114112 := char_toNat_lt c
  have hrecon : ((((c.toNat / 1048576 % 16 * 16 + c.toNat / 65536 % 16) * 16 +
      c.toNat / 4096 % 16) * 16 + c.toNat / 256 % 16) * 16 + c.toNat / 16 % 16) * 16 +
      c.toNat % 16 = c.toNat := by omega
  rw [hrecon, Char.ofNat_toNat]

theorem decGroups_encChar (c : Char) (rest : List Char) :
    decGroups (encChar c ++ rest) = (decGroups rest).map (fun l => c :: l) := by
  simp only [encChar, hex6, List.cons_append, List.nil_append, decGroups, decHex6_encChar]
  rfl

theorem decGroups_encChars (s : List Char) :
    decGroups ((s.map encChar).flatten) = some s := by
  induction s with
  | nil => rfl
  | cons c rest ih =>
    simp only [List.map_cons, List.flatten_cons]
    rw [decGroups_encChar, ih]
    rfl

theorem breakBar_append (l rest : List Char) (h : '|' ∉ l) :
    breakBar (l ++ '|' :: rest) = some (l, rest) := by
  induction l with
  | nil => rfl
  | cons c cs ih =>
    have hc : c ≠ '|' := fun hcc => h (by simp [hcc])
    have hcs : '|' ∉ cs := fun hm => h (by simp [hm])
    simp only [List.cons_append, breakBar, if_neg hc, List.append_eq]
    rw [ih hcs]
    rfl

theorem hexDigit_ne_bar (k : Nat) (h : k < 16) : hexDigit k ≠ '|' := by
  interval_cases k <;> decide

theorem encChars_no_bar (s : String) : '|' ∉ encChars s := by
  intro hmem
  simp only [encChars] at hmem
  obtain ⟨l, hl, hmem2⟩ := List.mem_flatten.mp hmem
  obtain ⟨c, _, rfl⟩ := List.mem_map.mp hl
  have hlt : ∀ x : Nat, x % 16 < 16 := fun x => Nat.mod_lt x (by omega)
  simp only [encChar, hex6, List.mem_cons, List.not_mem_nil, or_false] at hmem2
  rcases hmem2 with h | h | h | h | h | h
  all_goals exact hexDigit_ne_bar _ (hlt _) h.symm

theorem parseEncField_append (s : String) (rest : List Char) :
    parseEncField (encField s ++ rest) = some (s, rest) := by
  simp only [encField, parseEncField, List.append_assoc, List.cons_append, List.nil_append]
  rw [breakBar_append _ _ (encChars_no_bar s)]
  simp only [encChars, decGroups_encChars]

theorem intDecStr_chars (i : Int) :
    ∀ c ∈ (intDecStr i).data, c.toNat = 45 ∨ (48 ≤ c.toNat ∧ c.toNat ≤ 57) := by
  intro c hc
  match i with
  | .ofNat n =>
    exact Or.inr (natDecStr_head_digit n c hc)
  | .negSucc n =>
    have hsplit : (intDecStr (Int.negSucc n)).data = '-' :: (natDecStr (n + 1)).data := by
      simp [intDecStr, String.data_append]
    rw [hsplit] at hc
    rcases List.mem_cons.mp hc with h | h
    · subst h; left; rfl
    · exact Or.inr (natDecStr_head_digit (n + 1) c h)

theorem intDecStr_no_bar (i : Int) : '|' ∉ (intDecStr i).data := by
  intro h
  rcases intDecStr_chars i '|' h with h2 | h2
  · exact absurd h2 (by decide)
  · exact absurd h2 (by decide)

theorem parseIntField_append (i : Int) (rest : List Char) :
    parseIntField (intField i ++ rest) = some (i, rest) := by
  simp only [intField, parseIntField, List.append_assoc, List.cons_append, List.nil_append]
  rw [breakBar_append _ _ (intDecStr_no_bar i)]
  simp [parseIntChars_intDecStr]

theorem intDecStr_ne_n (i : Int) : (intDecStr i).data ≠ ['n'] := by
  intro h
  have : 'n' ∈ (intDecStr i).data := by rw [h]; simp
  rcases intDecStr_chars i 'n' this with h2 | h2
  · exact absurd h2 (by decide)
  · exact absurd h2 (by decide)

theorem parseOptIntField_append (e : Option Int) (rest : List Char) :
    parseOptIntField (optIntField e ++ rest) = some (e, rest) := by
  cases e with
  | none =>
    show parseOptIntField ('n' :: '|' :: rest) = some (none, rest)
    simp [parseOptIntField, breakBar]
  | some i =>
    simp only [optIntField, intField, parseOptIntField, List.append_assoc, List.cons_append,
      List.nil_append]
    rw [breakBar_append _ _ (intDecStr_no_bar i)]
    simp only [if_neg (intDecStr_ne_n i), parseIntChars_intDecStr]

theorem encChars_length (s : String) : (encChars s).length = 6 * s.data.length := by
  simp only [encChars]
  induction s.data with
  | nil => rfl
  | cons c cs ih =>
    simp only [List.map_cons, List.flatten_cons, List.length_append, ih, encChar, hex6]
    simp
    omega

theorem encChars_ne_dot (s : String) : encChars s ≠ ['.'] := by
  intro h
  have h1 : (encChars s).length = 1 := by rw [h]; rfl
  rw [encChars_length] at h1
  omega

theorem parseUI_append (ui : List (String × String)) :
    ∀ fuel rest, ui.length < fuel → parseUI fuel (uiEnc ui ++ rest) = some (ui, rest) := by
  induction ui with
  | nil =>
    intro fuel rest hf
    cases fuel with
    | zero => omega
    | succ f =>
      show parseUI (f + 1) ('.' :: '|' :: rest) = some ([], rest)
      simp [parseUI, breakBar]
  | cons p tl ih =>
    intro fuel rest hf
    cases fuel with
    | zero => omega
    | succ f =>
      obtain ⟨k, v⟩ := p
      have hshape : uiEnc ((k, v) :: tl) ++ rest =
          encChars k ++ '|' :: (encField v ++ (uiEnc tl ++ rest)) := by
        simp [uiEnc, uiPairEnc, encField, List.append_assoc]
      rw [hshape]
      simp only [parseUI]
      rw [breakBar_append _ _ (encChars_no_bar k)]
      simp only [if_neg (encChars_ne_dot k)]
      simp only [encChars, decGroups_encChars]
      rw [parseEncField_append]
      have hlt : tl.length < f := by
        simp only [List.length_cons] at hf
        omega
      simp only [ih f rest hlt]

theorem uiEnc_length_ge (ui : List (String × String)) : ui.length < (uiEnc ui).length := by
  induction ui with
  | nil => simp [uiEnc]
  | cons p tl ih =>
    simp only [uiEnc, List.map_cons, List.flatten_cons, List.length_append, List.length_cons,
      uiPairEnc, encField] at ih ⊢
    simp at ih ⊢
    omega

theorem parseEncField_exact (s : String) : parseEncField (encField s) = some (s, []) := by
  have h := parseEncField_append s []
  rwa [List.append_nil] at h

theorem parseFinal_serializeFinal (fd : FinalData) : parseFinal (serializeFinal fd) = some fd := by
  obtain ⟨⟨tok, ui, exp, dfp, created, url⟩, sig, ver⟩ := fd
  have hdata : (serializeFinal ⟨⟨tok, ui, exp, dfp, created, url⟩, sig, ver⟩).data =
      encField tok ++ (uiEnc ui ++ (optIntField exp ++ (encField dfp ++ (intField created ++
      (encField url ++ (encField sig ++ encField ver)))))) := by
    simp [serializeFinal, List.append_assoc]
  have hfuel : ui.length < (uiEnc ui ++ (optIntField exp ++ (encField dfp ++ (intField created ++
      (encField url ++ (encField sig ++ encField ver)))))).length + 1 := by
    have := uiEnc_length_ge ui
    simp only [List.length_append]
    omega
  have hui := parseUI_append ui ((uiEnc ui ++ (optIntField exp ++ (encField dfp ++
      (intField created ++ (encField url ++ (encField sig ++ encField ver)))))).length + 1)
      (optIntField exp ++ (encField dfp ++ (intField created ++ (encField url ++
      (encField sig ++ encField ver))))) hfuel
  simp only [parseFinal, hdata, parseEncField_append, hui, parseOptIntField_append,
    parseIntField_append, parseEncField_exact]
  rfl

/-! ### Local session cache (src/auth/session/manager.py)

The cache file is an Option String (None = file absent); each method returns
its result together with the file state it leaves behind. -/

theorem decryptData_encryptData (key m : String) :
    decryptData key (encryptData key m) = some m := by
  have hdata : (encryptData key m).data = (sha256Hex (key ++ "#" ++ m)).data ++ m.data := by
    simp [encryptData, String.data_append]
  have hlen : (sha256Hex (key ++ "#" ++ m)).data.length = 64 := sha256Hex_data_length _
  have htake : (encryptData key m).data.take 64 = (sha256Hex (key ++ "#" ++ m)).data := by
    rw [hdata, ← hlen, List.take_left]
  have hdrop : (encryptData key m).data.drop 64 = m.data := by
    rw [hdata, ← hlen, List.drop_left]
  have hlen2 : ¬ (encryptData key m).data.length < 64 := by
    rw [hdata, List.length_append, hlen]
    omega
  simp only [decryptData, if_neg hlen2, htake, hdrop]
  have hmk : (String.mk m.data) = m := rfl
  rw [hmk]
  simp

/-! ### Helper lemmas for the store theorems -/

theorem find?_map_pred {α : Type} (f : α → α) (p : α → Bool) (l : List α)
    (hp : ∀ x, p (f x) = p x) : (l.map f).find? p = (l.find? p).map f := by
  induction l with
  | nil => rfl
  | cons x xs ih =>
    by_cases hx : p x
    · simp [List.find?_cons, hp, hx]
    · simp only [List.map_cons, List.find?_cons, hp, hx]
      simpa using ih

theorem filter_ne_nil_iff_any {α : Type} (p : α → Bool) (l : List α) :
    (l.filter p).length > 0 ↔ l.any p = true := by
  induction l with
  | nil => simp
  | cons x xs ih =>
    by_cases hx : p x
    · simp [List.filter_cons, hx]
    · simp [List.filter_cons, hx, ih]

/-- C4: a session verifies successfully at any time not past its expiry and
fails afterwards, and subsequent verifies keep failing — but the two
managers split on the side effect: the PostgreSQL verify_session reports
'Session expired' and leaves the row untouched (no inactive marking), while
the Supabase verify_session marks the row inactive and reports a bare None. -/
theorem c4_expiry_amended (db : AuthDb) (token device : String) (s : SessionRow)
    (u : UserRow)
    (hs : db.sessions.find? (fun r => r.session_token == token && r.device_fingerprint == device)
      = some s)
    (hst : db.sessions.find? (fun r => r.session_token == token) = some s)
    (hdev : s.device_fingerprint = device)
    (hu : userById db s.user_id = some u)
    (hsa : s.is_active = true) (hua : u.is_active = true) (hue : u.expires_at = none) :
    (∀ now : Int, ¬ now > s.expires_at →
      (pgVerifySession now db token device).1 = .valid s.user_id u.username u.account_type) ∧
    (∀ now : Int, now > s.expires_at →
      pgVerifySession now db token device = (.invalid "Session expired", db)) ∧
    (∀ now : Int, s.expires_at < now →
      sbVerifySession now db token device = (none, deactivateById db s.id)) ∧
    (∀ now2 : Int,
      (sbVerifySession now2 (deactivateById db s.id) token device).1 = none) := by
  have hfind : (deactivateById db s.id).sessions.find? (fun x => x.session_token == token)
      = some { s with is_active := false } := by
    simp only [deactivateById]
    rw [find?_map_pred _ _ _ (by intro x; by_cases hx : x.id == s.id <;> simp [hx])]
    rw [hst]
    simp
  refine ⟨?_, ?_, ?_, ?_⟩
  · intro now hnow
    simp [pgVerifySession, hs, hu, hsa, hua, hue, userExpired, hnow]
  · intro now hnow
    simp [pgVerifySession, hs, hu, hsa, hua, hnow]
  · intro now hnow
    simp [sbVerifySession, hst, hu, hsa, hdev, hnow]
  · intro now2
    simp only [sbVerifySession, hfind]
    cases userById (deactivateById db s.id) s.user_id <;> rfl

/-- C4 witness: the amended theorem applied to the concrete store cdb, at
times 199 (before expiry 200), 201 (after) and 300 (a later re-verify). -/
theorem c4_expiry_witness :
    (pgVerifySession 199 cdb "T1" "D1").1 = .valid 1 "alice" "trial" ∧
    pgVerifySession 201 cdb "T1" "D1" = (.invalid "Session expired", cdb) ∧
    sbVerifySession 201 cdb "T1" "D1" = (none, deactivateById cdb 1) ∧
    (sbVerifySession 300 (deactivateById cdb 1) "T1" "D1").1 = none := by
  have h := c4_expiry_amended cdb "T1" "D1" t1Row aliceRow (by decide) (by decide) (by decide)
    (by decide) (by decide) (by decide) (by decide)
  exact ⟨h.1 199 (by decide), h.2.1 201 (by decide), h.2.2.1 201 (by decide), h.2.2.2 300⟩

/-- C4 counterexample: at time 201 the PostgreSQL verify_session reports the
session expired yet the stored row keeps is_active = true — the claimed
"marks the session inactive on expiry detection" side effect does not
happen there. -/
theorem c4_counterexample :
    (pgVerifySession 201 ⟨[⟨1, "alice", "ph", none, none, true, "trial", 1⟩],
        [⟨1, 1, "T1", "D1", 200, 0, true⟩]⟩ "T1" "D1").1 = .invalid "Session expired" ∧
    ((pgVerifySession 201 ⟨[⟨1, "alice", "ph", none, none, true, "trial", 1⟩],
        [⟨1, 1, "T1", "D1", 200, 0, true⟩]⟩ "T1" "D1").2.sessions.map
      (fun s => s.is_active)) = [true] := by
  decide

/-- C5 (amended): a token with no stored session and an existing token

presented with the wrong device produce the SAME failure in both managers —
the PostgreSQL query folds the two cases into one 'Invalid session' result
(its WHERE clause filters on token and device together) and the Supabase
method returns None for both; the two outcomes are not distinct. -/
theorem c5_failure_kinds_amended (now : Int) (db : AuthDb) (token2 token device : String)
    (s0 : SessionRow) (u0 : UserRow)
    (h1 : db.sessions.find? (fun s => s.session_token == token2) = none)
    (h2 : db.sessions.find? (fun s => s.session_token == token && s.device_fingerprint == device)
      = none)
    (h4 : db.sessions.find? (fun s => s.session_token == token) = some s0)
    (h5 : s0.is_active = true)
    (h6 : s0.device_fingerprint ≠ device)
    (h7 : userById db s0.user_id = some u0) :
    (pgVerifySession now db token2 device).1 = .invalid "Invalid session" ∧
    (pgVerifySession now db token device).1 = .invalid "Invalid session" ∧
    (pgVerifySession now db token2 device).1 = (pgVerifySession now db token device).1 ∧
    (sbVerifySession now db token2 device).1 = none ∧
    (sbVerifySession now db token device).1 = none := by
  have h1full : db.sessions.find?
      (fun s => s.session_token == token2 && s.device_fingerprint == device) = none := by
    rw [List.find?_eq_none] at h1 ⊢
    intro x hx hpred
    exact h1 x hx (by simp_all)
  refine ⟨?_, ?_, ?_, ?_, ?_⟩
  · simp [pgVerifySession, h1full]
  · simp [pgVerifySession, h2]
  · simp [pgVerifySession, h1full, h2]
  · simp [sbVerifySession, h1]
  · simp [sbVerifySession, h4, h7, h5, h6]

/-- C5 witness: in the concrete store, token T2 is unknown and token T1 is
bound to device D1, so presenting T1 from D2 and presenting T2 both come
back as the same 'Invalid session' / None failure. -/
theorem c5_failure_kinds_witness :
    (pgVerifySession 100 cdb "T2" "D1").1 = .invalid "Invalid session" ∧
    (pgVerifySession 100 cdb "T1" "D2").1 = .invalid "Invalid session" ∧
    (pgVerifySession 100 cdb "T2" "D1").1 = (pgVerifySession 100 cdb "T1" "D2").1 ∧
    (sbVerifySession 100 cdb "T2" "D1").1 = none ∧
    (sbVerifySession 100 cdb "T1" "D2").1 = none := by
  exact c5_failure_kinds_amended 100 cdb "T2" "T1" "D2" t1Row aliceRow (by decide) (by decide)
    (by decide) (by decide) (by decide) (by decide)

/-- C5 counterexample: verifying the unknown token T2 and verifying the
known token T1 from the wrong device D2 return EQUAL results in both
managers, so the claimed distinct SessionNotFound / DeviceMismatch outcomes
do not exist. -/
theorem c5_counterexample :
    pgVerifySession 100 ⟨[⟨1, "alice", "ph", none, none, true, "trial", 1⟩],
        [⟨1, 1, "T1", "D1", 200, 0, true⟩]⟩ "T2" "D1"
      = pgVerifySession 100 ⟨[⟨1, "alice", "ph", none, none, true, "trial", 1⟩],
        [⟨1, 1, "T1", "D1", 200, 0, true⟩]⟩ "T1" "D2" ∧
    sbVerifySession 100 ⟨[⟨1, "alice", "ph", none, none, true, "trial", 1⟩],
        [⟨1, 1, "T1", "D1", 200, 0, true⟩]⟩ "T2" "D1"
      = sbVerifySession 100 ⟨[⟨1, "alice", "ph", none, none, true, "trial", 1⟩],
        [⟨1, 1, "T1", "D1", 200, 0, true⟩]⟩ "T1" "D2" := by
  decide

/-- C6 (amended): revoke_session is idempotent on the store and reports the
same result on a repeat call, and an already-revoked token still reports
success — but a nonexistent token reports False, not a no-op success; the
Supabase manager agrees with the PostgreSQL one on both count and state. -/
theorem c6_revoke_amended (db : AuthDb) (token : String) :
    (pgRevokeSession (pgRevokeSession db token).2 token).1 = (pgRevokeSession db token).1 ∧
    (pgRevokeSession (pgRevokeSession db token).2 token).2 = (pgRevokeSession db token).2 ∧
    ((pgRevokeSession db token).1 = true ↔
      db.sessions.any (fun s => s.session_token == token) = true) ∧
    (sbRevokeSession db token).1 = (pgRevokeSession db token).1 ∧
    (sbRevokeSession db token).2 = (pgRevokeSession db token).2 := by
  have hp : ∀ x : SessionRow,
      ((if x.session_token == token then { x with is_active := false } else x).session_token
        == token) = (x.session_token == token) := by
    intro x
    by_cases hx : x.session_token == token <;> simp [hx]
  have hcount : ∀ l : List SessionRow,
      ((l.map (fun s => if s.session_token == token then { s with is_active := false } else s)
        ).filter (fun s => s.session_token == token)).length
      = (l.filter (fun s => s.session_token == token)).length := by
    intro l
    rw [← List.countP_eq_length_filter, ← List.countP_eq_length_filter, List.countP_map]
    exact List.countP_congr (fun x _ => by simpa using (hp x))
  refine ⟨?_, ?_, ?_, ?_, ?_⟩
  · simp only [pgRevokeSession]
    simp only [hcount db.sessions]
  · simp only [pgRevokeSession, List.map_map]
    congr 1
    apply List.map_congr_left
    intro x _
    by_cases hx : x.session_token == token <;> simp [Function.comp, hx]
  · simp only [pgRevokeSession, decide_eq_true_eq]
    exact filter_ne_nil_iff_any _ _
  · have hb : ∀ l : List SessionRow, (!l.isEmpty) = decide (l.length > 0) := by
      intro l
      cases l <;> simp
    simp only [sbRevokeSession, pgRevokeSession, hb]
  · rfl

/-- C6 witness: token T1 exists in the concrete store, so revoking it twice
succeeds both times and leaves the same store. -/
theorem c6_revoke_witness :
    (pgRevokeSession (pgRevokeSession cdb "T1").2 "T1").1 = (pgRevokeSession cdb "T1").1 ∧
    ((pgRevokeSession cdb "T1").1 = true ↔
      cdb.sessions.any (fun s => s.session_token == "T1") = true) := by
  have h := c6_revoke_amended cdb "T1"
  exact ⟨h.1, h.2.2.1⟩

/-- C6 counterexample: revoking a token with no stored session returns
False in both managers, where the claim requires a no-op success. -/
theorem c6_counterexample :
    (pgRevokeSession ⟨[], []⟩ "T-missing").1 = false ∧
    (sbRevokeSession ⟨[], []⟩ "T-missing").1 = false := by
  decide

/-- C7 (amended): for an inactive account presented with its correct
password, only the Supabase authenticate_user reports the distinct
'Account inactive' failure; the PostgreSQL authenticate_user filters
inactive accounts out of its SQL lookup and reports plain
'Invalid credentials' instead. -/
theorem c7_inactive_amended (now : Int) (db : AuthDb) (username password device : String)
    (u : UserRow)
    (hpg : db.users.find? (fun x => x.username == username && x.is_active) = none)
    (hsb : db.users.find?
      (fun x => x.username == username && x.password_hash == sha256Hex password) = some u)
    (hua : u.is_active = false) :
    pgAuthenticate now db username password device = (.failure "Invalid credentials", db) ∧
    sbAuthenticate now db username password device = (.failure "Account inactive", db) := by
  constructor
  · simp [pgAuthenticate, hpg]
  · simp [sbAuthenticate, hsb, hua]

/-- C7 witness: a deactivated user "carol" with correct password "pw":
PostgreSQL answers Invalid credentials, Supabase answers Account inactive. -/
theorem c7_inactive_witness :
    pgAuthenticate 100 ⟨[⟨2, "carol", sha256Hex "pw", none, none, false, "trial", 1⟩], []⟩
        "carol" "pw" "D1"
      = (.failure "Invalid credentials",
         ⟨[⟨2, "carol", sha256Hex "pw", none, none, false, "trial", 1⟩], []⟩) ∧
    sbAuthenticate 100 ⟨[⟨2, "carol", sha256Hex "pw", none, none, false, "trial", 1⟩], []⟩
        "carol" "pw" "D1"
      = (.failure "Account inactive",
         ⟨[⟨2, "carol", sha256Hex "pw", none, none, false, "trial", 1⟩], []⟩) :=
  c7_inactive_amended 100 ⟨[⟨2, "carol", sha256Hex "pw", none, none, false, "trial", 1⟩], []⟩
    "carol" "pw" "D1" ⟨2, "carol", sha256Hex "pw", none, none, false, "trial", 1⟩
    (by decide) (by decide) (by decide)

/-- C7 counterexample: the claim requires AccountInactive for every
authenticate_user, but the PostgreSQL manager returns Invalid credentials
for the inactive user "carol" with the correct password, and the two
failure values differ. -/
theorem c7_counterexample :
    (pgAuthenticate 100 ⟨[⟨2, "carol", sha256Hex "pw", none, none, false, "trial", 1⟩], []⟩
        "carol" "pw" "D1").1 = .failure "Invalid credentials" ∧
    (AuthResult.failure "Invalid credentials" ≠ .failure "Account inactive") := by
  constructor
  · decide
  · decide

/-- C8: an unknown username and an existing username with a wrong password
are answered with the same 'Invalid credentials' failure (and unchanged
store) by both managers — the result never separates the two cases. -/
theorem c8_invalid_credentials (now : Int) (db : AuthDb)
    (uname1 uname2 password1 password2 device1 device2 : String)
    (h1 : ∀ x ∈ db.users, x.username ≠ uname1)
    (h2 : ∃ x ∈ db.users, x.username = uname2)
    (h3 : ∀ x ∈ db.users, x.username = uname2 → x.password_hash ≠ sha256Hex password2) :
    pgAuthenticate now db uname1 password1 device1 = (.failure "Invalid credentials", db) ∧
    sbAuthenticate now db uname1 password1 device1 = (.failure "Invalid credentials", db) ∧
    pgAuthenticate now db uname2 password2 device2 = (.failure "Invalid credentials", db) ∧
    sbAuthenticate now db uname2 password2 device2 = (.failure "Invalid credentials", db) ∧
    (pgAuthenticate now db uname1 password1 device1).1
      = (pgAuthenticate now db uname2 password2 device2).1 ∧
    (sbAuthenticate now db uname1 password1 device1).1
      = (sbAuthenticate now db uname2 password2 device2).1 := by
  have hpg1 : db.users.find? (fun x => x.username == uname1 && x.is_active) = none := by
    rw [List.find?_eq_none]
    intro x hx hpred
    have := h1 x hx
    simp at hpred
    exact this hpred.1
  have hsb1 : db.users.find?
      (fun x => x.username == uname1 && x.password_hash == sha256Hex password1) = none := by
    rw [List.find?_eq_none]
    intro x hx hpred
    have := h1 x hx
    simp at hpred
    exact this hpred.1
  have hpg2 : pgAuthenticate now db uname2 password2 device2
      = (.failure "Invalid credentials", db) := by
    simp only [pgAuthenticate]
    cases hfind : db.users.find? (fun x => x.username == uname2 && x.is_active) with
    | none => rfl
    | some u =>
      have hmem : u ∈ db.users := List.mem_of_find?_eq_some hfind
      have hpred := List.find?_some hfind
      simp at hpred
      have hneq := h3 u hmem hpred.1
      simp [hneq]
  have hsb2 : sbAuthenticate now db uname2 password2 device2
      = (.failure "Invalid credentials", db) := by
    simp only [sbAuthenticate]
    have : db.users.find?
        (fun x => x.username == uname2 && x.password_hash == sha256Hex password2) = none := by
      rw [List.find?_eq_none]
      intro x hx hpred
      simp at hpred
      exact h3 x hx hpred.1 hpred.2
    simp [this]
  have e1pg : pgAuthenticate now db uname1 password1 device1
      = (.failure "Invalid credentials", db) := by simp [pgAuthenticate, hpg1]
  have e1sb : sbAuthenticate now db uname1 password1 device1
      = (.failure "Invalid credentials", db) := by simp [sbAuthenticate, hsb1]
  refine ⟨e1pg, e1sb, hpg2, hsb2, ?_, ?_⟩
  · rw [e1pg, hpg2]
  · rw [e1sb, hsb2]

/-- C8 witness: the store holds only the active user "bob" with password
"pw"; logging in as unknown "mallory" and as "bob" with wrong password
"guess" both come back Invalid credentials in both managers. -/
theorem c8_invalid_credentials_witness :
    pgAuthenticate 100 ⟨[⟨3, "bob", sha256Hex "pw", none, none, true, "paid", 2⟩], []⟩
        "mallory" "x" "D1"
      = (.failure "Invalid credentials",
         ⟨[⟨3, "bob", sha256Hex "pw", none, none, true, "paid", 2⟩], []⟩) ∧
    sbAuthenticate 100 ⟨[⟨3, "bob", sha256Hex "pw", none, none, true, "paid", 2⟩], []⟩
        "mallory" "x" "D1"
      = (.failure "Invalid credentials",
         ⟨[⟨3, "bob", sha256Hex "pw", none, none, true, "paid", 2⟩], []⟩) ∧
    pgAuthenticate 100 ⟨[⟨3, "bob", sha256Hex "pw", none, none, true, "paid", 2⟩], []⟩
        "bob" "guess" "D1"
      = (.failure "Invalid credentials",
         ⟨[⟨3, "bob", sha256Hex "pw", none, none, true, "paid", 2⟩], []⟩) ∧
    sbAuthenticate 100 ⟨[⟨3, "bob", sha256Hex "pw", none, none, true, "paid", 2⟩], []⟩
        "bob" "guess" "D1"
      = (.failure "Invalid credentials",
         ⟨[⟨3, "bob", sha256Hex "pw", none, none, true, "paid", 2⟩], []⟩) := by
  have h := c8_invalid_credentials 100
    ⟨[⟨3, "bob", sha256Hex "pw", none, none, true, "paid", 2⟩], []⟩
    "mallory" "bob" "x" "guess" "D1" "D1"
    (by intro x hx; simp at hx; subst hx; decide)
    (⟨⟨3, "bob", sha256Hex "pw", none, none, true, "paid", 2⟩, by simp, rfl⟩)
    (by intro x hx _; simp at hx; subst hx; decide)
  exact ⟨h.1, h.2.1, h.2.2.1, h.2.2.2.1⟩

/-- C2: two concurrent first logins for the same unbound, active,
non-expired account with the correct password from distinct devices dA and
dB, under every interleaving of their read and conditional-bind statements:
the finally stored device_fingerprint is dA or dB (never null, and only one
value is recorded since there is a single column), and every caller whose
device is not the stored one fails its next authenticate_user with the
device-mismatch failure. -/
theorem c2_race_binding (now : Int) (ss : List SessionRow)
    (username password dA dB : String) (u0 : UserRow)
    (hname : u0.username = username) (hactive : u0.is_active = true)
    (hhash : u0.password_hash = sha256Hex password)
    (hexp : userExpired now u0.expires_at = false)
    (hunbound : u0.device_fingerprint = none)
    (hAB : dA ≠ dB) :
    ∀ sched : Sched,
      ∃ dw, (dw = dA ∨ dw = dB) ∧
        (runSched sched now ⟨[u0], ss⟩ username password dA dB).2.2.users
          = [{ u0 with device_fingerprint := some dw }] ∧
        ∀ dl, (dl = dA ∨ dl = dB) → dl ≠ dw →
          (pgAuthenticate now (runSched sched now ⟨[u0], ss⟩ username password dA dB).2.2
            username password dl).1 = .failure "Account is bound to another device" := by
  intro sched
  have hpred : (u0.username == username && u0.is_active) = true := by
    simp [hname, hactive]
  have hread0 : raceRead ⟨[u0], ss⟩ username = some u0 := by
    simp [raceRead, List.find?, hpred]
  have hwrites0 : ∀ d : String, raceWriteStep now ⟨[u0], ss⟩ (some u0) password d
      = ⟨[{ u0 with device_fingerprint := some d }], ss⟩ := by
    intro d
    simp [raceWriteStep, raceWrites, hhash, hexp, hunbound, bindDevice]
  have hboundrow : ∀ d : String,
      ({ u0 with device_fingerprint := some d } : UserRow).username = username ∧
      ({ u0 with device_fingerprint := some d } : UserRow).is_active = true := by
    intro d
    exact ⟨hname, hactive⟩
  have hread1 : ∀ d : String,
      raceRead ⟨[{ u0 with device_fingerprint := some d }], ss⟩ username
        = some { u0 with device_fingerprint := some d } := by
    intro d
    simp [raceRead, List.find?, hname, hactive]
  have hnowrite : ∀ d d2 : String,
      raceWriteStep now ⟨[{ u0 with device_fingerprint := some d }], ss⟩
        (some { u0 with device_fingerprint := some d }) password d2
      = ⟨[{ u0 with device_fingerprint := some d }], ss⟩ := by
    intro d d2
    simp [raceWriteStep, raceWrites]
  have hrebind : ∀ d d2 : String,
      raceWriteStep now ⟨[{ u0 with device_fingerprint := some d }], ss⟩ (some u0) password d2
      = ⟨[{ u0 with device_fingerprint := some d2 }], ss⟩ := by
    intro d d2
    simp [raceWriteStep, raceWrites, hhash, hexp, hunbound, bindDevice]
  have hloser : ∀ dw dl : String, dl ≠ dw →
      (pgAuthenticate now ⟨[{ u0 with device_fingerprint := some dw }], ss⟩
        username password dl).1 = .failure "Account is bound to another device" := by
    intro dw dl hne
    have hfind : List.find? (fun u => u.username == username && u.is_active)
        [{ u0 with device_fingerprint := some dw }]
        = some { u0 with device_fingerprint := some dw } := by
      simp [List.find?, hname, hactive]
    have hdevne : dw ≠ dl := fun h => hne h.symm
    simp only [pgAuthenticate]
    rw [hfind]
    simp [hhash, hexp, hdevne]
  cases sched with
  | rw1rw2 =>
    refine ⟨dA, Or.inl rfl, ?_, ?_⟩
    · simp [runSched, hread0, hwrites0, hread1, hnowrite]
    · intro dl _ hne
      have hstate : (runSched .rw1rw2 now ⟨[u0], ss⟩ username password dA dB).2.2
          = ⟨[{ u0 with device_fingerprint := some dA }], ss⟩ := by
        simp [runSched, hread0, hwrites0, hread1, hnowrite]
      rw [hstate]
      exact hloser dA dl hne
  | rw2rw1 =>
    refine ⟨dB, Or.inr rfl, ?_, ?_⟩
    · simp [runSched, hread0, hwrites0, hread1, hnowrite]
    · intro dl _ hne
      have hstate : (runSched .rw2rw1 now ⟨[u0], ss⟩ username password dA dB).2.2
          = ⟨[{ u0 with device_fingerprint := some dB }], ss⟩ := by
        simp [runSched, hread0, hwrites0, hread1, hnowrite]
      rw [hstate]
      exact hloser dB dl hne
  | rr12ww12 =>
    refine ⟨dB, Or.inr rfl, ?_, ?_⟩
    · simp [runSched, hread0, hwrites0, hrebind]
    · intro dl _ hne
      have hstate : (runSched .rr12ww12 now ⟨[u0], ss⟩ username password dA dB).2.2
          = ⟨[{ u0 with device_fingerprint := some dB }], ss⟩ := by
        simp [runSched, hread0, hwrites0, hrebind]
      rw [hstate]
      exact hloser dB dl hne
  | rr12ww21 =>
    refine ⟨dA, Or.inl rfl, ?_, ?_⟩
    · simp [runSched, hread0, hwrites0, hrebind]
    · intro dl _ hne
      have hstate : (runSched .rr12ww21 now ⟨[u0], ss⟩ username password dA dB).2.2
          = ⟨[{ u0 with device_fingerprint := some dA }], ss⟩ := by
        simp [runSched, hread0, hwrites0, hrebind]
      rw [hstate]
      exact hloser dA dl hne
  | rr21ww12 =>
    refine ⟨dB, Or.inr rfl, ?_, ?_⟩
    · simp [runSched, hread0, hwrites0, hrebind]
    · intro dl _ hne
      have hstate : (runSched .rr21ww12 now ⟨[u0], ss⟩ username password dA dB).2.2
          = ⟨[{ u0 with device_fingerprint := some dB }], ss⟩ := by
        simp [runSched, hread0, hwrites0, hrebind]
      rw [hstate]
      exact hloser dB dl hne
  | rr21ww21 =>
    refine ⟨dA, Or.inl rfl, ?_, ?_⟩
    · simp [runSched, hread0, hwrites0, hrebind]
    · intro dl _ hne
      have hstate : (runSched .rr21ww21 now ⟨[u0], ss⟩ username password dA dB).2.2
          = ⟨[{ u0 with device_fingerprint := some dA }], ss⟩ := by
        simp [runSched, hread0, hwrites0, hrebind]
      rw [hstate]
      exact hloser dA dl hne

/-- C2 witness: the unbound active user "dave" (password "pw"), devices
"D-A" and "D-B", under the fully overlapped schedule read-read-write-write:
the final binding is D-B and the losing device D-A gets the device-mismatch
failure on its next login. -/
theorem c2_race_binding_witness :
    ∃ dw, (dw = "D-A" ∨ dw = "D-B") ∧
      (runSched .rr12ww12 100 ⟨[⟨4, "dave", sha256Hex "pw", none, none, true, "trial", 1⟩], []⟩
        "dave" "pw" "D-A" "D-B").2.2.users
        = [{ (⟨4, "dave", sha256Hex "pw", none, none, true, "trial", 1⟩ : UserRow) with
            device_fingerprint := some dw }] ∧
      ∀ dl, (dl = "D-A" ∨ dl = "D-B") → dl ≠ dw →
        (pgAuthenticate 100
          (runSched .rr12ww12 100 ⟨[⟨4, "dave", sha256Hex "pw", none, none, true, "trial", 1⟩],
            []⟩ "dave" "pw" "D-A" "D-B").2.2
          "dave" "pw" dl).1 = .failure "Account is bound to another device" :=
  c2_race_binding 100 [] "dave" "pw" "D-A" "D-B"
    ⟨4, "dave", sha256Hex "pw", none, none, true, "trial", 1⟩
    rfl rfl rfl (by decide) rfl (by decide) .rr12ww12

/-- C9 (amended): two machine states agreeing on the collected hardware
descriptors (CPU source and fallback, board serial, product UUID, storage
serials, MACs, platform string) produce the same default digest whatever
their volatile signals do — PROVIDED the board-identifier chain does not
bottom out, since get_motherboard_info falls back to the hostname when both
the board serial and the product UUID are unavailable, at which point that
volatile signal does enter the digest. -/
theorem c9_volatile_amended (m1 m2 : Machine)
    (hcpu : m1.cpu_source = m2.cpu_source) (hcpf : m1.cpu_fallback = m2.cpu_fallback)
    (hb : m1.board_serial = m2.board_serial) (hpu : m1.product_uuid = m2.product_uuid)
    (hst : m1.storage_ids = m2.storage_ids) (hm : m1.macs = m2.macs)
    (hpl : m1.platform_str = m2.platform_str)
    (havail : m1.board_serial ≠ none ∨ m1.product_uuid ≠ none ∨ m1.hostname = m2.hostname) :
    generate_device_id m1 false = generate_device_id m2 false := by
  have h1 : get_cpu_info m1 = get_cpu_info m2 := by simp [get_cpu_info, hcpu, hcpf]
  have h2 : get_motherboard_info m1 = get_motherboard_info m2 := by
    rcases hbs : m2.board_serial with _ | s
    · rcases hpu2 : m2.product_uuid with _ | p
      · have hh : m1.hostname = m2.hostname := by
          rcases havail with h | h | h
          · exact absurd (hb.trans hbs) h
          · exact absurd (hpu.trans hpu2) h
          · exact h
        simp [get_motherboard_info, hb, hpu, hbs, hpu2, hh]
      · simp [get_motherboard_info, hb, hpu, hbs, hpu2]
    · simp [get_motherboard_info, hb, hbs]
  have h3 : get_storage_info m1 = get_storage_info m2 := by simp [get_storage_info, hst]
  have h4 : get_network_info m1 = get_network_info m2 := by simp [get_network_info, hm]
  simp [generate_device_id, h1, h2, h3, h4, hpl]

/-- C9 witness: two states of the same hardware (board serial present)
differing in hostname, IP, boot id and environment user still digest
identically. -/
theorem c9_volatile_witness :
    generate_device_id
      ⟨some "cpu-0001", "x86_64", some "MB-7", some "uuid-7", ["disk-1"],
       ["00:11:22:33:44:55"], "Linux_x86_64_64bit", "host-alpha", "root", "10.0.0.1",
       "boot-1", "Linux", "6.1", "v1"⟩ false
    = generate_device_id
      ⟨some "cpu-0001", "x86_64", some "MB-7", some "uuid-7", ["disk-1"],
       ["00:11:22:33:44:55"], "Linux_x86_64_64bit", "host-beta", "user", "10.0.0.2",
       "boot-2", "Linux", "6.1", "v1"⟩ false :=
  c9_volatile_amended _ _ rfl rfl rfl rfl rfl rfl rfl (Or.inl (by decide))

/-- C9 counterexample: with the board serial and product UUID both
unavailable, two states that agree on every stable hardware descriptor
(processor id, board id — both absent, storage serials, MACs, platform
string) but differ in the volatile hostname produce DIFFERENT digests: the
hostname fallback of get_motherboard_info flows into the default digest. -/
theorem c9_counterexample :
    (⟨some "cpu-0001", "x86_64", none, none, ["disk-1"], ["00:11:22:33:44:55"],
      "Linux_x86_64_64bit", "host-alpha", "root", "10.0.0.1", "boot-1", "Linux", "6.1",
      "v1"⟩ : Machine).cpu_source
      = (⟨some "cpu-0001", "x86_64", none, none, ["disk-1"], ["00:11:22:33:44:55"],
      "Linux_x86_64_64bit", "host-beta", "root", "10.0.0.2", "boot-2", "Linux", "6.1",
      "v1"⟩ : Machine).cpu_source ∧
    (⟨some "cpu-0001", "x86_64", none, none, ["disk-1"], ["00:11:22:33:44:55"],
      "Linux_x86_64_64bit", "host-alpha", "root", "10.0.0.1", "boot-1", "Linux", "6.1",
      "v1"⟩ : Machine).board_serial
      = (⟨some "cpu-0001", "x86_64", none, none, ["disk-1"], ["00:11:22:33:44:55"],
      "Linux_x86_64_64bit", "host-beta", "root", "10.0.0.2", "boot-2", "Linux", "6.1",
      "v1"⟩ : Machine).board_serial ∧
    (⟨some "cpu-0001", "x86_64", none, none, ["disk-1"], ["00:11:22:33:44:55"],
      "Linux_x86_64_64bit", "host-alpha", "root", "10.0.0.1", "boot-1", "Linux", "6.1",
      "v1"⟩ : Machine).storage_ids
      = (⟨some "cpu-0001", "x86_64", none, none, ["disk-1"], ["00:11:22:33:44:55"],
      "Linux_x86_64_64bit", "host-beta", "root", "10.0.0.2", "boot-2", "Linux", "6.1",
      "v1"⟩ : Machine).storage_ids ∧
    (⟨some "cpu-0001", "x86_64", none, none, ["disk-1"], ["00:11:22:33:44:55"],
      "Linux_x86_64_64bit", "host-alpha", "root", "10.0.0.1", "boot-1", "Linux", "6.1",
      "v1"⟩ : Machine).macs
      = (⟨some "cpu-0001", "x86_64", none, none, ["disk-1"], ["00:11:22:33:44:55"],
      "Linux_x86_64_64bit", "host-beta", "root", "10.0.0.2", "boot-2", "Linux", "6.1",
      "v1"⟩ : Machine).macs ∧
    (⟨some "cpu-0001", "x86_64", none, none, ["disk-1"], ["00:11:22:33:44:55"],
      "Linux_x86_64_64bit", "host-alpha", "root", "10.0.0.1", "boot-1", "Linux", "6.1",
      "v1"⟩ : Machine).platform_str
      = (⟨some "cpu-0001", "x86_64", none, none, ["disk-1"], ["00:11:22:33:44:55"],
      "Linux_x86_64_64bit", "host-beta", "root", "10.0.0.2", "boot-2", "Linux", "6.1",
      "v1"⟩ : Machine).platform_str ∧
    (⟨some "cpu-0001", "x86_64", none, none, ["disk-1"], ["00:11:22:33:44:55"],
      "Linux_x86_64_64bit", "host-alpha", "root", "10.0.0.1", "boot-1", "Linux", "6.1",
      "v1"⟩ : Machine).hostname
      ≠ (⟨some "cpu-0001", "x86_64", none, none, ["disk-1"], ["00:11:22:33:44:55"],
      "Linux_x86_64_64bit", "host-beta", "root", "10.0.0.2", "boot-2", "Linux", "6.1",
      "v1"⟩ : Machine).hostname ∧
    generate_device_id (⟨some "cpu-0001", "x86_64", none, none, ["disk-1"],
      ["00:11:22:33:44:55"], "Linux_x86_64_64bit", "host-alpha", "root", "10.0.0.1", "boot-1",
      "Linux", "6.1", "v1"⟩ : Machine) false
      ≠ generate_device_id (⟨some "cpu-0001", "x86_64", none, none, ["disk-1"],
      ["00:11:22:33:44:55"], "Linux_x86_64_64bit", "host-beta", "root", "10.0.0.2", "boot-2",
      "Linux", "6.1", "v1"⟩ : Machine) false := by
  refine ⟨rfl, rfl, rfl, rfl, rfl, by decide, by decide⟩

theorem pyWs_eq_false (c : Char) (h : serialChar c) : pyWs c = false := by
  have h1 : c ≠ ' ' := by intro hc; rw [hc] at h; revert h; decide
  have h2 : c ≠ '\t' := by intro hc; rw [hc] at h; revert h; decide
  have h3 : c ≠ '\n' := by intro hc; rw [hc] at h; revert h; decide
  have h4 : c ≠ '\r' := by intro hc; rw [hc] at h; revert h; decide
  have h5 : c ≠ '\x0B' := by intro hc; rw [hc] at h; revert h; decide
  have h6 : c ≠ '\x0C' := by intro hc; rw [hc] at h; revert h; decide
  simp [pyWs, h1, h2, h3, h4, h5, h6]

theorem hexDigit_serial (k : Nat) (h : k < 16) : serialChar (hexDigit k) := by
  interval_cases k <;> decide

theorem wordHex_serial (x : Nat) : ∀ c ∈ (wordHex x).data, serialChar c := by
  intro c hc
  simp only [wordHex, List.mem_cons, List.not_mem_nil, or_false] at hc
  have hlt : ∀ y : Nat, y % 16 < 16 := fun y => Nat.mod_lt y (by omega)
  rcases hc with h | h | h | h | h | h | h | h <;> (subst h; exact hexDigit_serial _ (hlt _))

theorem sha256Hex_serial (s : String) : ∀ c ∈ (sha256Hex s).data, serialChar c := by
  intro c hc
  simp only [sha256Hex, String.data_append, List.mem_append] at hc
  rcases hc with ((((((h | h) | h) | h) | h) | h) | h) | h <;> exact wordHex_serial _ c h

theorem encChars_serial (s : String) : ∀ c ∈ encChars s, serialChar c := by
  intro c hc
  simp only [encChars] at hc
  obtain ⟨l, hl, hmem2⟩ := List.mem_flatten.mp hc
  obtain ⟨ch, _, rfl⟩ := List.mem_map.mp hl
  have hlt : ∀ y : Nat, y % 16 < 16 := fun y => Nat.mod_lt y (by omega)
  simp only [encChar, hex6, List.mem_cons, List.not_mem_nil, or_false] at hmem2
  rcases hmem2 with h | h | h | h | h | h <;> (subst h; exact hexDigit_serial _ (hlt _))

theorem encField_serial (s : String) : ∀ c ∈ encField s, serialChar c := by
  intro c hc
  rcases List.mem_append.mp hc with h | h
  · exact encChars_serial s c h
  · simp at h
    subst h
    decide

theorem intField_serial (i : Int) : ∀ c ∈ intField i, serialChar c := by
  intro c hc
  rcases List.mem_append.mp hc with h | h
  · rcases intDecStr_chars i c h with h2 | h2
    · exact Or.inl h2
    · exact Or.inr (Or.inr (Or.inr (Or.inr (Or.inl h2))))
  · simp at h
    subst h
    decide

theorem optIntField_serial (e : Option Int) : ∀ c ∈ optIntField e, serialChar c := by
  cases e with
  | none =>
    intro c hc
    simp only [optIntField, List.mem_cons, List.not_mem_nil, or_false] at hc
    rcases hc with h | h <;> (subst h; decide)
  | some i => exact intField_serial i

theorem uiEnc_serial (ui : List (String × String)) : ∀ c ∈ uiEnc ui, serialChar c := by
  intro c hc
  rcases List.mem_append.mp hc with h | h
  · obtain ⟨l, hl, hmem2⟩ := List.mem_flatten.mp h
    obtain ⟨p, _, rfl⟩ := List.mem_map.mp hl
    rcases List.mem_append.mp hmem2 with h2 | h2
    · exact encField_serial p.1 c h2
    · exact encField_serial p.2 c h2
  · simp only [List.mem_cons, List.not_mem_nil, or_false] at h
    rcases h with h | h <;> (subst h; decide)

theorem serializeFinal_serial (fd : FinalData) : ∀ c ∈ (serializeFinal fd).data, serialChar c := by
  show ∀ c ∈ (encField fd.session_data.session_token ++ uiEnc fd.session_data.user_info ++
    optIntField fd.session_data.expires_at ++ encField fd.session_data.device_fingerprint ++
    intField fd.session_data.created_at ++ encField fd.session_data.api_base_url ++
    encField fd.signature ++ encField fd.version), serialChar c
  simp only [List.forall_mem_append]
  exact ⟨⟨⟨⟨⟨⟨⟨encField_serial _, uiEnc_serial _⟩, optIntField_serial _⟩, encField_serial _⟩,
    intField_serial _⟩, encField_serial _⟩, encField_serial _⟩, encField_serial _⟩

theorem dropWhile_all_false (p : Char → Bool) (l : List Char) (h : ∀ c ∈ l, p c = false) :
    l.dropWhile p = l := by
  cases l with
  | nil => rfl
  | cons x xs => simp [List.dropWhile_cons, h x (by simp)]

theorem pyStrip_eq_self (s : String) (h : ∀ c ∈ s.data, pyWs c = false) : pyStrip s = s := by
  have h1 : s.data.dropWhile pyWs = s.data := dropWhile_all_false _ _ h
  have h2 : s.data.reverse.dropWhile pyWs = s.data.reverse :=
    dropWhile_all_false _ _ (fun c hc => h c (List.mem_reverse.mp hc))
  show String.mk (((s.data.dropWhile pyWs).reverse.dropWhile pyWs).reverse) = s
  rw [h1, h2, List.reverse_reverse]

theorem artifact_not_ws (key : String) (fd : FinalData) :
    ∀ c ∈ (encryptData key (serializeFinal fd)).data, pyWs c = false := by
  intro c hc
  have hsplit : (encryptData key (serializeFinal fd)).data
      = (sha256Hex (key ++ "#" ++ serializeFinal fd)).data ++ (serializeFinal fd).data := by
    simp [encryptData, String.data_append]
  rw [hsplit] at hc
  rcases List.mem_append.mp hc with h | h
  · exact pyWs_eq_false c (sha256Hex_serial _ c h)
  · exact pyWs_eq_false c (serializeFinal_serial fd c h)

theorem artifact_strip (key : String) (fd : FinalData) :
    pyStrip (encryptData key (serializeFinal fd)) = encryptData key (serializeFinal fd) :=
  pyStrip_eq_self _ (artifact_not_ws key fd)

theorem artifact_ne_empty (key : String) (fd : FinalData) :
    encryptData key (serializeFinal fd) ≠ "" := by
  intro h
  have hlen := congrArg (fun s => s.data.length) h
  simp only [encryptData] at hlen
  rw [String.data_append, List.length_append, sha256Hex_data_length] at hlen
  simp at hlen

theorem sha256Hex_head (s : String) :
    ∃ k rest, k < 16 ∧ (sha256Hex s).data = hexDigit k :: rest := by
  refine ⟨(sha256Core (strBytes s)).a >>> 28 % 16, ?_, Nat.mod_lt _ (by omega), ?_⟩
  · exact ((wordHex ((sha256Core (strBytes s)).a)).data.tail ++
      (wordHex (sha256Core (strBytes s)).b ++ wordHex (sha256Core (strBytes s)).c ++
       wordHex (sha256Core (strBytes s)).d ++ wordHex (sha256Core (strBytes s)).e ++
       wordHex (sha256Core (strBytes s)).f ++ wordHex (sha256Core (strBytes s)).g ++
       wordHex (sha256Core (strBytes s)).h).data)
  · simp [sha256Hex, wordHex, String.data_append]

theorem hexDigit_ne_z (k : Nat) (h : k < 16) : hexDigit k ≠ 'z' := by
  interval_cases k <;> decide

/-- The general save/load round trip: load_session on the artifact
save_session wrote, same fingerprint, expiry not yet passed, returns the
saved record and leaves the file alone. -/
theorem load_of_save (fp api_url : String) (nowS nowL : Int) (token : String)
    (ui : List (String × String)) (expiry : Option Int)
    (hexp : ∀ e, expiry = some e → ¬ nowL > e) :
    load_session fp nowL (save_session fp api_url nowS token ui expiry).2
      = (some ⟨token, ui, expiry, fp, nowS, api_url⟩,
         (save_session fp api_url nowS token ui expiry).2) := by
  have hsave : (save_session fp api_url nowS token ui expiry).2
      = some (encryptData (kdfKey fp) (serializeFinal
          ⟨⟨token, ui, expiry, fp, nowS, api_url⟩,
           sessionSignature fp ⟨token, ui, expiry, fp, nowS, api_url⟩, "1.0"⟩)) := rfl
  rw [hsave]
  simp only [load_session, artifact_strip]
  rw [if_neg (artifact_ne_empty _ _), decryptData_encryptData]
  simp only [parseFinal_serializeFinal]
  simp only [bne_self_eq_false, Bool.false_eq_true, if_false]
  cases hexp2 : expiry with
  | none => simp [hexp2]
  | some e =>
    have hne : ¬ nowL > e := hexp e hexp2
    simp [hexp2, hne]

/-- Facts about the artifact with its first byte flipped to 'z': strip
leaves it alone, it is nonempty, and (the point) its decryption fails —
the recomputed MAC starts with a hex digit, never 'z'. -/
theorem tam_facts (fp : String) (fd : FinalData) :
    pyStrip (String.mk ('z' :: (encryptData (kdfKey fp) (serializeFinal fd)).data.tail))
      = String.mk ('z' :: (encryptData (kdfKey fp) (serializeFinal fd)).data.tail) ∧
    String.mk ('z' :: (encryptData (kdfKey fp) (serializeFinal fd)).data.tail) ≠ "" ∧
    decryptData (kdfKey fp)
      (pyStrip (String.mk ('z' :: (encryptData (kdfKey fp) (serializeFinal fd)).data.tail)))
      = none := by
  obtain ⟨k, rest, hk, hhead⟩ := sha256Hex_head (kdfKey fp ++ "#" ++ serializeFinal fd)
  have hartdata : (encryptData (kdfKey fp) (serializeFinal fd)).data
      = hexDigit k :: (rest ++ (serializeFinal fd).data) := by
    simp [encryptData, String.data_append, hhead]
  have hrestlen : rest.length = 63 := by
    have h64 := sha256Hex_data_length (kdfKey fp ++ "#" ++ serializeFinal fd)
    rw [hhead] at h64
    simp at h64
    omega
  have htail : (encryptData (kdfKey fp) (serializeFinal fd)).data.tail
      = rest ++ (serializeFinal fd).data := by
    rw [hartdata]
    rfl
  have hstrip : pyStrip (String.mk ('z' :: (encryptData (kdfKey fp)
      (serializeFinal fd)).data.tail))
      = String.mk ('z' :: (encryptData (kdfKey fp) (serializeFinal fd)).data.tail) := by
    apply pyStrip_eq_self
    intro c hc
    rcases List.mem_cons.mp hc with h | h
    · subst h; decide
    · have h2 : c ∈ rest ++ (serializeFinal fd).data := htail ▸ h
      exact artifact_not_ws (kdfKey fp) fd c
        (by rw [hartdata]; exact List.mem_cons_of_mem _ h2)
  have hne2 : String.mk ('z' :: (encryptData (kdfKey fp) (serializeFinal fd)).data.tail)
      ≠ "" := by
    intro h
    have := congrArg String.data h
    simp at this
  refine ⟨hstrip, hne2, ?_⟩
  rw [hstrip]
  have hlen : ('z' :: (rest ++ (serializeFinal fd).data)).length
      = 64 + (serializeFinal fd).data.length := by
    simp [hrestlen]
    omega
  have htake : ('z' :: (rest ++ (serializeFinal fd).data)).take 64
      = 'z' :: rest := by
    have hstep : ('z' :: (rest ++ (serializeFinal fd).data)).take (63 + 1)
        = 'z' :: (rest ++ (serializeFinal fd).data).take 63 := by
      simp [List.take_succ_cons]
    rw [show (64 : Nat) = 63 + 1 from rfl, hstep, ← hrestlen, List.take_left]
  have hdrop : ('z' :: (rest ++ (serializeFinal fd).data)).drop 64
      = (serializeFinal fd).data := by
    have hstep : ('z' :: (rest ++ (serializeFinal fd).data)).drop (63 + 1)
        = (rest ++ (serializeFinal fd).data).drop 63 := by
      simp [List.drop_succ_cons]
    rw [show (64 : Nat) = 63 + 1 from rfl, hstep, ← hrestlen, List.drop_left]
  have hcond : ¬ (String.mk ('z' :: rest)
      = sha256Hex (kdfKey fp ++ "#" ++ String.mk (serializeFinal fd).data)) := by
    intro hcontra
    have hdc := congrArg String.data hcontra
    have hmk : (String.mk (serializeFinal fd).data) = serializeFinal fd := rfl
    rw [hmk, hhead] at hdc
    simp at hdc
    exact hexDigit_ne_z k hk hdc.symm
  simp only [decryptData]
  rw [htail]
  rw [hlen, htake, hdrop]
  rw [if_neg (by omega), if_neg hcond]

/-- load_session on the byte-flipped artifact: None, file left in place. -/
theorem load_zflip (fp : String) (now : Int) (fd : FinalData) :
    load_session fp now
      (some (String.mk ('z' :: (encryptData (kdfKey fp) (serializeFinal fd)).data.tail)))
      = (none,
         some (String.mk ('z' :: (encryptData (kdfKey fp) (serializeFinal fd)).data.tail))) := by
  obtain ⟨hstrip, hne2, hdec⟩ := tam_facts fp fd
  have hne3 : pyStrip (String.mk ('z' :: (encryptData (kdfKey fp)
      (serializeFinal fd)).data.tail)) ≠ "" := by rw [hstrip]; exact hne2
  simp [load_session, hne3, hdec]

/-- C10: on one machine, a record saved by save_session loads back intact —
load_session on the file save_session wrote, with the fingerprint unchanged
and the expiry still in the future, returns a record whose session_token,
user_info, expires_at and device_fingerprint (and the remaining fields)
equal the saved values, leaving the file in place. -/
theorem c10_save_load_roundtrip (fp api_url : String) (nowS nowL : Int) (token : String)
    (ui : List (String × String)) (expiry : Option Int)
    (hexp : ∀ e, expiry = some e → ¬ nowL > e) :
    (save_session fp api_url nowS token ui expiry).1 = true ∧
    load_session fp nowL (save_session fp api_url nowS token ui expiry).2
      = (some ⟨token, ui, expiry, fp, nowS, api_url⟩,
         (save_session fp api_url nowS token ui expiry).2) :=
  ⟨rfl, load_of_save fp api_url nowS nowL token ui expiry hexp⟩

/-- C10 witness: the round trip applied to a concrete token, user-info
dictionary and future expiry on fingerprint FP-1. -/
theorem c10_save_load_roundtrip_witness :
    (save_session "FP-1" "http://localhost:8000" 100 "T1" [("username", "alice")]
      (some 200)).1 = true ∧
    load_session "FP-1" 150
      (save_session "FP-1" "http://localhost:8000" 100 "T1" [("username", "alice")]
        (some 200)).2
      = (some ⟨"T1", [("username", "alice")], some 200, "FP-1", 100, "http://localhost:8000"⟩,
         (save_session "FP-1" "http://localhost:8000" 100 "T1" [("username", "alice")]
           (some 200)).2) :=
  c10_save_load_roundtrip "FP-1" "http://localhost:8000" 100 150 "T1"
    [("username", "alice")] (some 200) (by intro e he; cases he; decide)

/-- C1: whenever the cache holds a record that load_session accepts (valid,
signed, unexpired) with a nonempty token, and the verification call raises
a RequestException (connection failure or timeout), get_current_session
returns None AND deletes the cache file — it never falls back to the cached
record.  The exception is caught inside verify_session_online, so
get_current_session takes its server-rejected branch: clear_session then
None. -/
theorem c1_fail_closed (fp : String) (now : Int) (file : Option String) (sd : SessionData)
    (msg : String)
    (hload : (load_session fp now file).1 = some sd)
    (htok : sd.session_token ≠ "") :
    get_current_session fp now file (.netFail msg) = (none, none) := by
  simp only [get_current_session, hload, verify_session_online]
  simp [htok]

/-- C1 witness: a freshly saved valid record on FP-1; with the network call
timing out, get_current_session rejects and the file is removed. -/
theorem c1_fail_closed_witness :
    get_current_session "FP-1" 150
      (save_session "FP-1" "http://localhost:8000" 100 "T1" [("username", "alice")]
        (some 200)).2
      (.netFail "timed out") = (none, none) :=
  c1_fail_closed "FP-1" 150
    (save_session "FP-1" "http://localhost:8000" 100 "T1" [("username", "alice")]
      (some 200)).2
    ⟨"T1", [("username", "alice")], some 200, "FP-1", 100, "http://localhost:8000"⟩
    "timed out"
    (by rw [load_of_save "FP-1" "http://localhost:8000" 100 150 "T1"
      [("username", "alice")] (some 200) (by intro e he; cases he; decide)])
    (by decide)

/-- C3 (amended): load_session recovers from every bad artifact by
returning None, and deletes the cache file on malformed (unparseable)
content, signature mismatch, device-fingerprint mismatch or past expiry —
but on a DECRYPTION failure it returns None while LEAVING THE FILE IN
PLACE: _decrypt_data swallows the exception and load_session's
"if not decrypted_data: return None" path never calls clear_session, so a
flipped byte that breaks decryption does not remove the artifact. -/
theorem c3_tamper_amended (fp : String) (now : Int) (raw : String)
    (hne : pyStrip raw ≠ "") :
    (decryptData (kdfKey fp) (pyStrip raw) = none →
      load_session fp now (some raw) = (none, some raw)) ∧
    (∀ plain, decryptData (kdfKey fp) (pyStrip raw) = some plain →
      parseFinal plain = none → load_session fp now (some raw) = (none, none)) ∧
    (∀ plain fd, decryptData (kdfKey fp) (pyStrip raw) = some plain →
      parseFinal plain = some fd → sessionSignature fp fd.session_data ≠ fd.signature →
      load_session fp now (some raw) = (none, none)) ∧
    (∀ plain fd, decryptData (kdfKey fp) (pyStrip raw) = some plain →
      parseFinal plain = some fd → sessionSignature fp fd.session_data = fd.signature →
      fd.session_data.device_fingerprint ≠ fp →
      load_session fp now (some raw) = (none, none)) ∧
    (∀ plain fd e, decryptData (kdfKey fp) (pyStrip raw) = some plain →
      parseFinal plain = some fd → sessionSignature fp fd.session_data = fd.signature →
      fd.session_data.device_fingerprint = fp → fd.session_data.expires_at = some e →
      now > e → load_session fp now (some raw) = (none, none)) := by
  refine ⟨?_, ?_, ?_, ?_, ?_⟩
  · intro hdec
    simp [load_session, hne, hdec]
  · intro plain hdec hparse
    simp [load_session, hne, hdec, hparse]
  · intro plain fd hdec hparse hsig
    simp [load_session, hne, hdec, hparse, hsig]
  · intro plain fd hdec hparse hsig hdev
    simp [load_session, hne, hdec, hparse, hsig, hdev]
  · intro plain fd e hdec hparse hsig hdev hexp hnow
    simp [load_session, hne, hdec, hparse, hsig, hdev, hexp, hnow]

/-- C3 witness: flipping the first byte of a freshly saved artifact to 'z'
breaks the MAC, and load_session returns None with the tampered file still
on disk (decrypt-failure branch of the amended theorem). -/
theorem c3_tamper_witness :
    load_session "FP-1" 150
      (some (String.mk ('z' ::
        (encryptData (kdfKey "FP-1") (serializeFinal
          ⟨⟨"T1", [("username", "alice")], some 200, "FP-1", 100, "http://localhost:8000"⟩,
           sessionSignature "FP-1"
             ⟨"T1", [("username", "alice")], some 200, "FP-1", 100, "http://localhost:8000"⟩,
           "1.0"⟩)).data.tail)))
      = (none,
         some (String.mk ('z' ::
          (encryptData (kdfKey "FP-1") (serializeFinal
            ⟨⟨"T1", [("username", "alice")], some 200, "FP-1", 100, "http://localhost:8000"⟩,
             sessionSignature "FP-1"
               ⟨"T1", [("username", "alice")], some 200, "FP-1", 100, "http://localhost:8000"⟩,
             "1.0"⟩)).data.tail))) :=
  (c3_tamper_amended "FP-1" 150 _
      (by
        have h := tam_facts "FP-1"
          ⟨⟨"T1", [("username", "alice")], some 200, "FP-1", 100, "http://localhost:8000"⟩,
           sessionSignature "FP-1"
             ⟨"T1", [("username", "alice")], some 200, "FP-1", 100, "http://localhost:8000"⟩,
           "1.0"⟩
        rw [h.1]
        exact h.2.1)).1
    (tam_facts "FP-1"
      ⟨⟨"T1", [("username", "alice")], some 200, "FP-1", 100, "http://localhost:8000"⟩,
       sessionSignature "FP-1"
         ⟨"T1", [("username", "alice")], some 200, "FP-1", 100, "http://localhost:8000"⟩,
       "1.0"⟩).2.2

/-- C3 counterexample: the artifact written by save_session, with exactly
its first byte changed (a hex MAC character, never 'z', becomes 'z'):
load_session returns None but the tampered artifact file is NOT removed,
where the claim requires deletion. -/
theorem c3_counterexample :
    (encryptData (kdfKey "FP-1") (serializeFinal
        ⟨⟨"T1", [("username", "alice")], some 200, "FP-1", 100, "http://localhost:8000"⟩,
         sessionSignature "FP-1"
           ⟨"T1", [("username", "alice")], some 200, "FP-1", 100, "http://localhost:8000"⟩,
         "1.0"⟩)).data.headD ' ' ≠ 'z' ∧
    (save_session "FP-1" "http://localhost:8000" 100 "T1" [("username", "alice")]
      (some 200)).2
      = some (encryptData (kdfKey "FP-1") (serializeFinal
          ⟨⟨"T1", [("username", "alice")], some 200, "FP-1", 100, "http://localhost:8000"⟩,
           sessionSignature "FP-1"
             ⟨"T1", [("username", "alice")], some 200, "FP-1", 100, "http://localhost:8000"⟩,
           "1.0"⟩)) ∧
    load_session "FP-1" 150
      (some (String.mk ('z' ::
        (encryptData (kdfKey "FP-1") (serializeFinal
          ⟨⟨"T1", [("username", "alice")], some 200, "FP-1", 100, "http://localhost:8000"⟩,
           sessionSignature "FP-1"
             ⟨"T1", [("username", "alice")], some 200, "FP-1", 100, "http://localhost:8000"⟩,
           "1.0"⟩)).data.tail)))
      ≠ (none, none) := by
  refine ⟨?_, rfl, ?_⟩
  · obtain ⟨k, rest, hk, hhead⟩ := sha256Hex_head
      (kdfKey "FP-1" ++ "#" ++ serializeFinal
        ⟨⟨"T1", [("username", "alice")], some 200, "FP-1", 100, "http://localhost:8000"⟩,
         sessionSignature "FP-1"
           ⟨"T1", [("username", "alice")], some 200, "FP-1", 100, "http://localhost:8000"⟩,
         "1.0"⟩)
    have hartdata : (encryptData (kdfKey "FP-1") (serializeFinal
        ⟨⟨"T1", [("username", "alice")], some 200, "FP-1", 100, "http://localhost:8000"⟩,
         sessionSignature "FP-1"
           ⟨"T1", [("username", "alice")], some 200, "FP-1", 100, "http://localhost:8000"⟩,
         "1.0"⟩)).data
        = hexDigit k :: (rest ++ (serializeFinal
            ⟨⟨"T1", [("username", "alice")], some 200, "FP-1", 100, "http://localhost:8000"⟩,
             sessionSignature "FP-1"
               ⟨"T1", [("username", "alice")], some 200, "FP-1", 100,
                "http://localhost:8000"⟩,
             "1.0"⟩).data) := by
      simp [encryptData, String.data_append, hhead]
    rw [hartdata]
    simpa using hexDigit_ne_z k hk
  · rw [load_zflip]
    intro h
    have := congrArg Prod.snd h
    simp at this
